import Mathlib

/-!
Verification development for the petrosa-cio nurse governance core.

This file gives a shallow embedding of the layered trading-configuration
resolver/writer (`TradingConfigManager` in `src/apps/nurse/enforcer.py`),
the regime guard (`src/apps/nurse/guard.py`) and the intent enforcer
(`NurseEnforcer` in `src/apps/nurse/enforcer.py`), and proves properties
of the embedding.

Modelling conventions:
- Python dicts of parameters become association lists `List (String × Val)`
  with first-match lookup; Python floats become `ℚ`.
- Python truthiness on optional strings (`if symbol:`) is `pyTruthy`
  (`None` and `""` are falsy); `x is not None` is `Option.isSome`.
- Timestamps are a logical `Nat` clock carried in the manager state;
  `time.time()` reads the clock, nothing advances it inside a call.
- The external MongoDB store adapter (an excluded collaborator, specified
  in the spec's External Interfaces section) is modelled as a `Store`
  record; write success or failure of its `set_* `/`delete_*` operations is
  injected through the `writable` flag, and ids for appended audit records
  are assigned from a store-side counter.
- `async` methods run atomically here: every claim below is about one
  sequential call chain, matching the spec's single-writer assumption.
-/

set_option maxRecDepth 4096
set_option linter.unusedVariables false

namespace Petrosa

/-- A parameter value: numeric, boolean or string (the value shapes the
spec's data model allows in a parameter mapping). -/
inductive Val where
  | num (q : ℚ)
  | bool (b : Bool)
  | str (s : String)
deriving DecidableEq

/-- A parameter mapping, as an association list with first-match lookup. -/
abbrev Params := List (String × Val)

/-- Dict lookup (first match wins, like a Python dict with unique keys). -/
def lookupA {α β : Type} [DecidableEq α] : List (α × β) → α → Option β
  | [], _ => none
  | (k, v) :: rest, key => if k = key then some v else lookupA rest key

/-- Dict update: bind `key` to `v`, dropping any previous binding. -/
def setA {α β : Type} [DecidableEq α] (l : List (α × β)) (key : α) (v : β) :
    List (α × β) :=
  (key, v) :: l.filter (fun e => decide (e.1 ≠ key))

/-- Python truthiness of an optional string: `None` and `""` are falsy. -/
def pyTruthy (o : Option String) : Bool :=
  match o with
  | none => false
  | some s => decide (s ≠ "")

/-- Python `x or d` on an optional string. -/
def orDefault (o : Option String) (d : String) : String :=
  match o with
  | none => d
  | some s => if s = "" then d else s

/-- Unwrap an optional string (only used where the source guarantees presence). -/
def strD (o : Option String) : String := o.getD ""

/-- Python truthiness of an optional parameter dict: `None` and `{}` are falsy. -/
def truthyParams (o : Option Params) : Bool :=
  match o with
  | none => false
  | some [] => false
  | some (_ :: _) => true

/-- Modelled from the spec: `apps/nurse/defaults.py` is imported by the
enforcer but absent from `src/`. The spec says the Parameter Validator's
`merge(base, override)` performs a shallow key-wise override: the override
wins per key, unspecified keys retain the base's value. -/
def merge_parameters (base over : Params) : Params :=
  base.filter (fun kv => (lookupA over kv.1).isNone) ++ over

/-- Modelled from the spec: the schema-like bounds used by the validator in
the absent `apps/nurse/defaults.py` (known keys with allowed numeric
ranges; e.g. leverage has an allowed range, which the repository's tests
exercise with leverage 15 valid and 999 invalid). -/
def parameter_bounds : List (String × ℚ × ℚ) :=
  [("leverage", 1, 125),
   ("stop_loss_pct", 0, 100),
   ("take_profit_pct", 0, 100),
   ("position_size_pct", 0, 1)]

/-- One validation check: unknown keys and out-of-bound numeric values are
rejected with a human-readable error. -/
def checkParam (kv : String × Val) : List String :=
  match lookupA parameter_bounds kv.1 with
  | none => ["Unknown parameter: " ++ kv.1]
  | some (lo, hi) =>
    match kv.2 with
    | .num q => if q < lo ∨ hi < q then ["Parameter " ++ kv.1 ++ " out of bounds"] else []
    | _ => []

/-- Modelled from the spec: `validate(parameters) -> (is_valid, error_list)`
from the absent `apps/nurse/defaults.py`; rejects unknown keys or
out-of-bound numeric values, one error per violation, never raises. -/
def validate_parameters (p : Params) : Bool × List String :=
  let errors := p.foldr (fun kv acc => checkParam kv ++ acc) []
  (errors.isEmpty, errors)

/-- Modelled from the spec: the library defaults that layered resolution
starts from (`get_default_parameters` in the absent `apps/nurse/defaults.py`). -/
def get_default_parameters : Params :=
  [("leverage", .num 10),
   ("stop_loss_pct", .num 2),
   ("take_profit_pct", .num 4),
   ("position_size_pct", .num 1)]

/-- Python `float(...)` coercion as applied to a stored value (the source
applies it to `potential_pnl`; claims never exercise the string case, which
in Python may raise). -/
def valToRat : Val → ℚ
  | .num q => q
  | .bool b => if b then 1 else 0
  | .str _ => 0

/-- The config record metadata built by `set_config`. -/
structure ConfigMeta where
  potential_pnl : ℚ
  blocked_reason : Option Val
deriving DecidableEq

/-- Modelled from the spec: the Trading Configuration record of the data
model (`contracts/trading_config.py` is imported but absent from `src/`):
scope identity, parameter mapping, integer version, timestamps, actor,
metadata. -/
structure TradingConfig where
  strategy_id : Option String
  symbol : Option String
  side : Option String
  parameters : Params
  version : Nat
  created_at : Nat
  updated_at : Nat
  created_by : String
  metadata : ConfigMeta
deriving DecidableEq

/-- Modelled from the spec: the immutable audit record of the data model
(`contracts/trading_config.py` is absent from `src/`). -/
structure TradingConfigAudit where
  config_type : String
  symbol : Option String
  side : Option String
  action : String
  parameters_before : Option Params
  parameters_after : Option Params
  version_before : Option Nat
  version_after : Option Nat
  changed_by : String
  reason : Option String
  timestamp : Nat
  metadata : Option ConfigMeta
deriving DecidableEq

/-- Modelled from the spec: the persistent Config Store Adapter (external
collaborator, spec External Interfaces): persisted configs keyed by scope,
an append-only audit log (newest first) with store-assigned ids, and flags
injecting reachability (`connected`) and write success (`writable`). -/
structure Store where
  connected : Bool
  writable : Bool
  global_config : Option TradingConfig
  symbol_configs : List (String × TradingConfig)
  strategy_configs : List (String × TradingConfig)
  symbol_side_configs : List ((String × String) × TradingConfig)
  audit_log : List (String × TradingConfigAudit)
  audit_seq : Nat
deriving DecidableEq

def Store.get_global_config (s : Store) : Option TradingConfig :=
  s.global_config

def Store.get_symbol_config (s : Store) (symbol : String) : Option TradingConfig :=
  lookupA s.symbol_configs symbol

def Store.get_strategy_config (s : Store) (strategy_id : String) : Option TradingConfig :=
  lookupA s.strategy_configs strategy_id

def Store.get_symbol_side_config (s : Store) (symbol side : String) : Option TradingConfig :=
  lookupA s.symbol_side_configs (symbol, side)

def Store.set_global_config (s : Store) (cfg : TradingConfig) : Bool × Store :=
  if s.writable then (true, { s with global_config := some cfg }) else (false, s)

def Store.set_symbol_config (s : Store) (cfg : TradingConfig) : Bool × Store :=
  if s.writable then
    (true, { s with symbol_configs := setA s.symbol_configs (strD cfg.symbol) cfg })
  else (false, s)

def Store.set_symbol_side_config (s : Store) (cfg : TradingConfig) : Bool × Store :=
  if s.writable then
    (true, { s with
      symbol_side_configs := setA s.symbol_side_configs (strD cfg.symbol, strD cfg.side) cfg })
  else (false, s)

def Store.delete_global_config (s : Store) : Bool × Store :=
  if s.writable then (true, { s with global_config := none }) else (false, s)

def Store.delete_symbol_config (s : Store) (symbol : String) : Bool × Store :=
  if s.writable then
    (true, { s with
      symbol_configs := s.symbol_configs.filter (fun e => decide (e.1 ≠ symbol)) })
  else (false, s)

def Store.delete_symbol_side_config (s : Store) (symbol side : String) : Bool × Store :=
  if s.writable then
    (true, { s with
      symbol_side_configs := s.symbol_side_configs.filter (fun e => decide (e.1 ≠ (symbol, side))) })
  else (false, s)

/-- Append an audit record; the store assigns the id (newest record first). -/
def Store.add_audit_record (s : Store) (a : TradingConfigAudit) : Store :=
  { s with audit_log := ("audit-" ++ toString s.audit_seq, a) :: s.audit_log,
           audit_seq := s.audit_seq + 1 }

/-- Audit history for a scope, newest first, limited (spec External
Interfaces: `get_config_history(symbol?, side?, limit)`). -/
def Store.get_config_history (s : Store) (symbol side : Option String)
    (limit : Nat) : List TradingConfigAudit :=
  ((s.audit_log.filter
      (fun e => decide (e.2.symbol = symbol ∧ e.2.side = side))).map
    (fun e => e.2)).take limit

/-- Audit record lookup by version for a scope and config type (newest match
first; versions are unique per scope under the single-writer model). -/
def Store.get_audit_record_by_version (s : Store) (version : Int)
    (config_type : String) (symbol side : Option String) :
    Option TradingConfigAudit :=
  (s.audit_log.find?
      (fun e => decide (e.2.config_type = config_type ∧ e.2.symbol = symbol ∧
        e.2.side = side ∧ e.2.version_after.map Int.ofNat = some version))).map
    (fun e => e.2)

/-- Audit record lookup by store-assigned id. -/
def Store.get_audit_record_by_id (s : Store) (audit_id : String) :
    Option TradingConfigAudit :=
  lookupA s.audit_log audit_id

/-- State of a `TradingConfigManager`: the store adapter, the in-process
cache mapping resolution keys to (parameters, fetch timestamp), the logical
clock, and the cache TTL. -/
structure ManagerState where
  store : Store
  cache : List (String × (Params × Nat))
  now : Nat
  cache_ttl_seconds : Nat
deriving DecidableEq

/-- `TradingConfigManager._get_cache_key`: the resolution key
`"{symbol or global}:{side or all}:{strategy_id or all_strategies}"`. -/
def get_cache_key (symbol side strategy_id : Option String) : String :=
  orDefault symbol "global" ++ ":" ++ orDefault side "all" ++ ":" ++
    orDefault strategy_id "all_strategies"

/-- Split a character list on every colon (always returns a nonempty list). -/
def splitChar : List Char → List (List Char)
  | [] => [[]]
  | c :: rest =>
    let r := splitChar rest
    if c = ':' then [] :: r
    else
      match r with
      | h :: t => (c :: h) :: t
      | [] => [[c]]

/-- Re-join character lists with colons. -/
def joinColon : List (List Char) → List Char
  | [] => []
  | [x] => x
  | x :: xs => x ++ ':' :: joinColon xs

/-- Python's `key.split(":", 2)`: at most two splits, the third component
keeps any further colons. -/
def pySplit2 (s : String) : List String :=
  match splitChar s.data with
  | a :: b :: c :: rest => [String.mk a, String.mk b, String.mk (joinColon (c :: rest))]
  | parts => parts.map String.mk

/-- The three parts of a cache key, when it has at least two colons. On a
key with fewer parts the Python unpacking
`symbol_part, side_part, strategy_part = cache_key.split(":", 2)` raises
ValueError; theorems quantifying over cache states therefore restrict to
well-formed keys (`keyParts` is `some`), which is every key the manager
itself creates. -/
def keyParts (key : String) : Option (String × String × String) :=
  match pySplit2 key with
  | [a, b, c] => some (a, b, c)
  | _ => none

/-- The predicate of `TradingConfigManager.invalidate_cache`: a key is
evicted when every given scope component (given meaning `is not None` in
the source) equals the corresponding key part. -/
def keyMatches (symbol side strategy_id : Option String) (key : String) : Bool :=
  match keyParts key with
  | some (sp, dp, stp) =>
    (match symbol with | none => true | some s => decide (sp = s)) &&
    (match side with | none => true | some s => decide (dp = s)) &&
    (match strategy_id with | none => true | some s => decide (stp = s))
  | none => false

/-- `TradingConfigManager.invalidate_cache`. -/
def invalidate_cache (st : ManagerState) (symbol side strategy_id : Option String) :
    ManagerState :=
  { st with cache := st.cache.filter (fun e => !(keyMatches symbol side strategy_id e.1)) }

/-- Result of `get_config`: the resolved parameters, whether any store
adapter read method was invoked, and the post-call manager state. -/
structure GetResult where
  params : Params
  storeRead : Bool
  state : ManagerState
deriving DecidableEq

/-- Merge one optional configuration layer over what is resolved so far
(a layer is only applied if it exists). -/
def applyLayer (resolved : Params) (cfg : Option TradingConfig) : Params :=
  match cfg with
  | some c => merge_parameters resolved c.parameters
  | none => resolved

/-- The sequential merge block of `TradingConfigManager.get_config`
(enforcer.py lines 182-209): defaults, then global, then symbol (if
truthy), then strategy (if truthy), then symbol+side (if both truthy). -/
def resolveLayers (store : Store) (symbol side strategy_id : Option String) : Params :=
  let r0 := applyLayer get_default_parameters store.get_global_config
  let r1 := if pyTruthy symbol then applyLayer r0 (store.get_symbol_config (strD symbol)) else r0
  let r2 :=
    if pyTruthy strategy_id then applyLayer r1 (store.get_strategy_config (strD strategy_id))
    else r1
  if pyTruthy symbol && pyTruthy side then
    applyLayer r2 (store.get_symbol_side_config (strD symbol) (strD side))
  else r2

/-- The cache-miss path of `get_config`: when the store is connected,
resolve the layers and count a store read; otherwise fall back to the
defaults without touching the store. Either way the result is cached with
the current timestamp. -/
def get_config_resolve (st : ManagerState) (symbol side strategy_id : Option String)
    (key : String) : GetResult :=
  if st.store.connected then
    let resolved := resolveLayers st.store symbol side strategy_id
    ⟨resolved, true, { st with cache := setA st.cache key (resolved, st.now) }⟩
  else
    ⟨get_default_parameters, false,
      { st with cache := setA st.cache key (get_default_parameters, st.now) }⟩

/-- `TradingConfigManager.get_config`: serve a fresh cache entry, else
resolve the layered configuration and cache it. -/
def get_config (st : ManagerState) (symbol side strategy_id : Option String) : GetResult :=
  let key := get_cache_key symbol side strategy_id
  match lookupA st.cache key with
  | some (cfg, ts) =>
    if st.now - ts < st.cache_ttl_seconds then ⟨cfg, false, st⟩
    else get_config_resolve st symbol side strategy_id key
  | none => get_config_resolve st symbol side strategy_id key

/-- Whether a fresh cache entry exists for `key` (the condition under which
`get_config` returns without resolving). -/
def cacheFresh (st : ManagerState) (key : String) : Bool :=
  match lookupA st.cache key with
  | some (_, ts) => st.now - ts < st.cache_ttl_seconds
  | none => false

/-- Strip the transient fields `potential_pnl` and `blocked_reason` before
validation (the dict comprehension in `set_config`). -/
def cleanParams (parameters : Params) : Params :=
  parameters.filter
    (fun kv => !(decide (kv.1 = "potential_pnl")) && !(decide (kv.1 = "blocked_reason")))

/-- The scope kind `set_config`/`delete_config`/`get_config_by_version`
compute: symbol+side beats symbol beats global (Python truthiness). -/
def configType (symbol side : Option String) : String :=
  if pyTruthy symbol && pyTruthy side then "symbol_side"
  else if pyTruthy symbol then "symbol"
  else "global"

/-- The existing-record read `set_config` and `delete_config` perform for
the computed scope kind. -/
def getScopeConfig (s : Store) (config_type : String) (symbol side : Option String) :
    Option TradingConfig :=
  if config_type = "global" then s.get_global_config
  else if config_type = "symbol" then s.get_symbol_config (strD symbol)
  else s.get_symbol_side_config (strD symbol) (strD side)

/-- The store write `set_config` dispatches on the computed scope kind. -/
def persistScope (s : Store) (config_type : String) (cfg : TradingConfig) : Bool × Store :=
  if config_type = "global" then s.set_global_config cfg
  else if config_type = "symbol" then s.set_symbol_config cfg
  else s.set_symbol_side_config cfg

/-- Result of `set_config` (and of `rollback_config`, which returns through
it): the success flag, the new record if any, the error list, and the
post-call manager state. -/
structure SetResult where
  ok : Bool
  config : Option TradingConfig
  errors : List String
  state : ManagerState
deriving DecidableEq

/-- `TradingConfigManager.set_config`. -/
def set_config (st : ManagerState) (parameters : Params) (changed_by : String)
    (symbol side strategy_id : Option String) (reason : Option String)
    (validate_only : Bool) : SetResult :=
  let potential_pnl := (lookupA parameters "potential_pnl").getD (Val.num 0)
  let blocked_reason := lookupA parameters "blocked_reason"
  let clean_parameters := cleanParams parameters
  let v := validate_parameters clean_parameters
  if !v.1 then ⟨false, none, v.2, st⟩
  else if validate_only then ⟨true, none, [], st⟩
  else
    let config_type := configType symbol side
    let existing :=
      if st.store.connected then getScopeConfig st.store config_type symbol side else none
    let version := match existing with | some e => e.version + 1 | none => 1
    let md : ConfigMeta := ⟨valToRat potential_pnl, blocked_reason⟩
    let new_config : TradingConfig :=
      ⟨strategy_id, symbol, side, clean_parameters, version,
        (match existing with | some e => e.created_at | none => st.now),
        st.now, changed_by, md⟩
    let persisted :=
      if st.store.connected then persistScope st.store config_type new_config
      else (false, st.store)
    if !persisted.1 then
      ⟨false, none, ["Failed to save configuration"], { st with store := persisted.2 }⟩
    else
      let audit : TradingConfigAudit :=
        ⟨config_type, symbol, side,
          (match existing with | some _ => "update" | none => "create"),
          existing.map (fun e => e.parameters), some clean_parameters,
          existing.map (fun e => e.version), some version,
          changed_by, reason, st.now, some md⟩
      let store2 :=
        if persisted.2.connected then persisted.2.add_audit_record audit else persisted.2
      ⟨true, some new_config, [],
        invalidate_cache { st with store := store2 } symbol side strategy_id⟩

/-- `TradingConfigManager.get_previous_config`: inspect the two most recent
audit records for the scope. -/
def get_previous_config (st : ManagerState) (symbol side : Option String) :
    Option Params :=
  if !st.store.connected then none
  else
    match st.store.get_config_history symbol side 2 with
    | [] => none
    | latest :: rest =>
      if latest.action = "update" && truthyParams latest.parameters_before then
        latest.parameters_before
      else
        match rest with
        | second :: _ =>
          if truthyParams second.parameters_after then second.parameters_after else none
        | [] => none

/-- `TradingConfigManager.get_config_by_version`. -/
def get_config_by_version (st : ManagerState) (version : Int)
    (symbol side : Option String) : Option Params :=
  if version < 1 then none
  else if !st.store.connected then none
  else
    let config_type := configType symbol side
    match st.store.get_audit_record_by_version version config_type symbol side with
    | some a => if truthyParams a.parameters_after then a.parameters_after else none
    | none => none

/-- `TradingConfigManager.get_config_by_id`. -/
def get_config_by_id (st : ManagerState) (audit_id : String)
    (symbol side : Option String) : Option Params :=
  if !st.store.connected then none
  else
    match st.store.get_audit_record_by_id audit_id with
    | none => none
    | some a =>
      if symbol ≠ a.symbol then none
      else if side ≠ a.side then none
      else a.parameters_after

/-- Python `reason or "rollback"`. -/
def reasonOr (reason : Option String) : String :=
  match reason with
  | none => "rollback"
  | some r => if r = "" then "rollback" else r

/-- `TradingConfigManager.rollback_config`: pick one of three strategies
(by rollback id, by target version, or previous configuration) and
re-submit the resolved parameters through `set_config`. -/
def rollback_config (st : ManagerState) (changed_by : String)
    (symbol side : Option String) (target_version : Option Int)
    (rollback_id : Option String) (reason : Option String) : SetResult :=
  if pyTruthy rollback_id then
    let rid := strD rollback_id
    let params := get_config_by_id st rid symbol side
    if !truthyParams params then
      ⟨false, none, ["Audit record " ++ rid ++ " not found"], st⟩
    else
      set_config st (params.getD []) changed_by symbol side none (some (reasonOr reason)) false
  else
    match target_version with
    | some tv =>
      if tv < 1 then ⟨false, none, ["Invalid version number (must be >= 1)"], st⟩
      else
        let params := get_config_by_version st tv symbol side
        if !truthyParams params then
          ⟨false, none, ["Version " ++ toString tv ++ " not found"], st⟩
        else
          set_config st (params.getD []) changed_by symbol side none (some (reasonOr reason)) false
    | none =>
      let params := get_previous_config st symbol side
      if !truthyParams params then
        ⟨false, none, ["No previous configuration found"], st⟩
      else
        set_config st (params.getD []) changed_by symbol side none (some (reasonOr reason)) false

/-- Result of `delete_config`. -/
structure DeleteResult where
  ok : Bool
  errors : List String
  state : ManagerState
deriving DecidableEq

/-- `TradingConfigManager.delete_config`. -/
def delete_config (st : ManagerState) (changed_by : String)
    (symbol side : Option String) (reason : Option String) : DeleteResult :=
  let config_type := configType symbol side
  if st.store.connected then
    let existing := getScopeConfig st.store config_type symbol side
    let del :=
      if config_type = "global" then st.store.delete_global_config
      else if config_type = "symbol" then st.store.delete_symbol_config (strD symbol)
      else st.store.delete_symbol_side_config (strD symbol) (strD side)
    if !del.1 then ⟨false, ["Failed to delete configuration"], { st with store := del.2 }⟩
    else
      match existing with
      | some e =>
        let audit : TradingConfigAudit :=
          ⟨config_type, symbol, side, "delete", some e.parameters, none,
            some e.version, none, changed_by, reason, st.now, none⟩
        let store2 := if del.2.connected then del.2.add_audit_record audit else del.2
        ⟨true, [], invalidate_cache { st with store := store2 } symbol side none⟩
      | none => ⟨true, [], invalidate_cache { st with store := del.2 } symbol side none⟩
  else ⟨false, ["Failed to delete configuration"], st⟩

/-- The decoded JSON fields a `policy:regime` payload may carry (each
optional; missing fields take the pydantic defaults). -/
structure RawPolicy where
  current_regime : Option String
  vol_threshold_breach : Option Bool
  drawdown_limit_exceeded : Option Bool
  current_drawdown : Option ℚ
  scale_down_factor : Option ℚ
deriving DecidableEq

/-- `RegimePolicy` (guard.py): the parsed regime policy. -/
structure RegimePolicy where
  current_regime : String
  vol_threshold_breach : Bool
  drawdown_limit_exceeded : Bool
  current_drawdown : ℚ
  scale_down_factor : ℚ
deriving DecidableEq

/-- The pydantic defaults of `RegimePolicy`. -/
def defaultRegimePolicy : RegimePolicy :=
  ⟨"unknown", false, false, 0, 1 / 2⟩

/-- `RegimePolicy(**payload)`: apply field defaults and the pydantic range
check `0 <= scale_down_factor <= 1` (out-of-range raises a validation
error, which propagates out of the guard). -/
def parsePolicy (r : RawPolicy) : Except String RegimePolicy :=
  let sdf := r.scale_down_factor.getD (1 / 2)
  if sdf < 0 ∨ 1 < sdf then .error "regime policy validation error"
  else
    .ok ⟨r.current_regime.getD "unknown", r.vol_threshold_breach.getD false,
      r.drawdown_limit_exceeded.getD false, r.current_drawdown.getD 0, sdf⟩

/-- What the guard's Redis collaborator does on `get("policy:regime")`:
no client configured, key absent (or empty, which is equally falsy),
a JSON payload, or a raised error (unreachable backend or undecodable
payload, neither of which the source catches). -/
inductive RegimeSource where
  | noClient
  | keyAbsent
  | payload (p : RawPolicy)
  | unreachable
deriving DecidableEq

/-- `RegimeGuard.get_current_regime` (the lookup-latency side channel is
not modelled): default policy when no client or the key is absent; parse
otherwise; a raising backend propagates. -/
def get_current_regime (src : RegimeSource) : Except String RegimePolicy :=
  match src with
  | .noClient => .ok ⟨"unknown", false, false, 0, 1 / 2⟩
  | .keyAbsent => .ok ⟨"unknown", false, false, 0, 1 / 2⟩
  | .payload p => parsePolicy p
  | .unreachable => .error "regime backend unreachable"

/-- `GuardDecision` (guard.py); metadata is the dict the guard builds
(minus the lookup-latency entry, which is real-time and not modelled). -/
structure GuardDecision where
  approved : Bool
  scale_factor : ℚ
  veto_reason : Option String
  metadata : List (String × Val)
  saved_capital : ℚ
deriving DecidableEq

/-- `RegimeGuard.calculate_saved_capital`. -/
def calculate_saved_capital (signal_size current_drawdown scale_factor : ℚ) : ℚ :=
  signal_size * current_drawdown * max (1 - scale_factor) 0

/-- The metadata dict `RegimeGuard.evaluate` builds from the policy. -/
def guardMeta (policy : RegimePolicy) : List (String × Val) :=
  [("current_regime", .str policy.current_regime),
   ("vol_threshold_breach", .bool policy.vol_threshold_breach),
   ("drawdown_limit_exceeded", .bool policy.drawdown_limit_exceeded)]

/-- The decision logic of `RegimeGuard.evaluate` applied to an
already-fetched policy. -/
def evaluatePolicy (policy : RegimePolicy) (quantity : ℚ) : GuardDecision :=
  let current_drawdown := max policy.current_drawdown 0
  let metadata : List (String × Val) := guardMeta policy
  if policy.drawdown_limit_exceeded then
    ⟨false, 0, some "drawdown_limit_exceeded", metadata,
      calculate_saved_capital quantity current_drawdown 0⟩
  else if policy.vol_threshold_breach && decide (0 < quantity) then
    ⟨true, policy.scale_down_factor, none, metadata,
      calculate_saved_capital quantity current_drawdown policy.scale_down_factor⟩
  else ⟨true, 1, none, metadata, 0⟩

/-- `RegimeGuard.evaluate`: fetch the policy (errors propagate), then decide. -/
def evaluate (src : RegimeSource) (quantity : ℚ) : Except String GuardDecision :=
  match get_current_regime src with
  | .error e => .error e
  | .ok policy => .ok (evaluatePolicy policy quantity)

/-- `EnforcerResult` (enforcer.py). -/
structure EnforcerResult where
  approved : Bool
  reason : Option String
  metadata : Option (List (String × Val))
deriving DecidableEq

/-- The action whitelist `NurseEnforcer.VALID_ACTIONS`. -/
def VALID_ACTIONS : List String := ["buy", "sell", "hold", "close"]

/-- ASCII lowercasing of Python `str.lower()` as the action strings use it. -/
def pyLower (s : String) : String :=
  String.mk (s.data.map Char.toLower)

/-- An intent payload as the enforcer reads it: the action string, an
optional numeric confidence, and a numeric quantity (absent quantity reads
as 0.0 in the source). A confidence that Python cannot coerce to float is
rejected by a branch the claims never exercise and is not modelled. -/
structure IntentPayload where
  action : String
  confidence : Option ℚ
  quantity : ℚ
deriving DecidableEq

/-- `NurseEnforcer.scale_position_size`. -/
def scale_position_size (intent : IntentPayload) (scale_factor : ℚ) : ℚ :=
  intent.quantity * scale_factor

/-- `NurseEnforcer.enforce`: deterministic action/confidence gate, then the
regime guard decision, merged into the result metadata. -/
def enforce (src : RegimeSource) (intent : IntentPayload) : Except String EnforcerResult :=
  let action := pyLower intent.action
  if !(VALID_ACTIONS.contains action) then .ok ⟨false, some "invalid_action", none⟩
  else if (match intent.confidence with
           | some c => !(decide (0 ≤ c ∧ c ≤ 1))
           | none => false) then
    .ok ⟨false, some "invalid_confidence", none⟩
  else
    match evaluate src intent.quantity with
    | .error e => .error e
    | .ok gd =>
      let md0 := gd.metadata ++ [("saved_capital", Val.num gd.saved_capital)]
      let md1 :=
        if gd.scale_factor < 1 then
          md0 ++ [("scaled_quantity", Val.num (scale_position_size intent gd.scale_factor)),
                  ("scale_factor", Val.num gd.scale_factor)]
        else md0
      if !gd.approved then
        .ok ⟨false, gd.veto_reason, some (md1 ++ [("veto_type", Val.str "semantic")])⟩
      else .ok ⟨true, none, some md1⟩

/-! Helper lemmas about dict lookup, merge and the store operations. -/

theorem lookupA_setA_same {α β : Type} [DecidableEq α] (l : List (α × β)) (k : α) (v : β) :
    lookupA (setA l k v) k = some v := by
  simp [setA, lookupA]

theorem lookupA_filter_none {α β : Type} [DecidableEq α] (l : List (α × β))
    (p : α × β → Bool) (k : α) (h : ∀ e ∈ l, e.1 = k → p e = false) :
    lookupA (l.filter p) k = none := by
  induction l with
  | nil => simp [lookupA]
  | cons e rest ih =>
    have ih2 : lookupA (rest.filter p) k = none :=
      ih (fun x hx hk => h x (List.mem_cons_of_mem e hx) hk)
    by_cases hpe : p e = true
    · have hek : ¬(e.1 = k) := by
        intro hk
        have := h e (List.mem_cons_self e rest) hk
        rw [hpe] at this
        exact absurd this (by simp)
      simp only [List.filter, hpe]
      cases e with
      | mk ek ev => simpa [lookupA, hek] using ih2
    · have hpe2 : p e = false := by
        cases hpe3 : p e
        · rfl
        · exact absurd hpe3 hpe
      simp only [List.filter, hpe2]
      exact ih2

theorem lookupA_filter_keep {α β : Type} [DecidableEq α] (l : List (α × β))
    (p : α × β → Bool) (k : α) (h : ∀ e ∈ l, e.1 = k → p e = true) :
    lookupA (l.filter p) k = lookupA l k := by
  induction l with
  | nil => simp
  | cons e rest ih =>
    have ih2 : lookupA (rest.filter p) k = lookupA rest k :=
      ih (fun x hx hk => h x (List.mem_cons_of_mem e hx) hk)
    cases e with
    | mk ek ev =>
      by_cases hek : ek = k
      · subst hek
        have hpe : p (ek, ev) = true := h (ek, ev) (List.mem_cons_self _ rest) rfl
        simp [List.filter, hpe, lookupA, ih2]
      · cases hpe : p (ek, ev)
        · simp [List.filter, hpe, lookupA, hek, ih2]
        · simp [List.filter, hpe, lookupA, hek, ih2]

theorem lookupA_append {α β : Type} [DecidableEq α] (l₁ l₂ : List (α × β)) (k : α) :
    lookupA (l₁ ++ l₂) k =
      (match lookupA l₁ k with
       | some v => some v
       | none => lookupA l₂ k) := by
  induction l₁ with
  | nil => simp [lookupA]
  | cons e rest ih =>
    cases e with
    | mk ek ev =>
      by_cases hek : ek = k
      · simp [lookupA, hek]
      · simp [lookupA, hek, ih]

/-- Key-wise override, override side: a key bound in the override looks up
to the override's value in the merge. -/
theorem lookupA_merge_over (b o : Params) (k : String) (v : Val)
    (h : lookupA o k = some v) :
    lookupA (merge_parameters b o) k = some v := by
  unfold merge_parameters
  rw [lookupA_append]
  have hleft : lookupA (b.filter (fun kv => (lookupA o kv.1).isNone)) k = none := by
    apply lookupA_filter_none
    intro e _ hek
    rw [hek, h]
    rfl
  rw [hleft, h]

/-- Key-wise override, base side: a key not bound in the override retains
the base's binding in the merge. -/
theorem lookupA_merge_base (b o : Params) (k : String) (h : lookupA o k = none) :
    lookupA (merge_parameters b o) k = lookupA b k := by
  unfold merge_parameters
  rw [lookupA_append]
  have hleft : lookupA (b.filter (fun kv => (lookupA o kv.1).isNone)) k = lookupA b k := by
    apply lookupA_filter_keep
    intro e _ hek
    rw [hek, h]
    rfl
  rw [hleft]
  cases hb : lookupA b k <;> simp [h]

theorem configType_cases (symbol side : Option String) :
    configType symbol side = "global" ∨ configType symbol side = "symbol" ∨
      configType symbol side = "symbol_side" := by
  unfold configType
  split
  · right; right; rfl
  · split
    · right; left; rfl
    · left; rfl

/-- The merge-with-empty-override identity the spec states for the
validator's merge. -/
theorem merge_parameters_empty (p : Params) : merge_parameters p [] = p := by
  unfold merge_parameters
  simp [lookupA]

/-! A characterization of a successful `set_config` call, used by several
theorems below. The named components spell out the record, audit record and
post-state the success branch constructs. -/

/-- The existing record the scope read of `set_config` sees when the store
is connected. -/
def scopeExisting (st : ManagerState) (symbol side : Option String) : Option TradingConfig :=
  getScopeConfig st.store (configType symbol side) symbol side

/-- The version a successful write assigns. -/
def newVersion (st : ManagerState) (symbol side : Option String) : Nat :=
  match scopeExisting st symbol side with
  | some e => e.version + 1
  | none => 1

/-- The metadata a write builds from the stripped transient fields. -/
def newMeta (parameters : Params) : ConfigMeta :=
  ⟨valToRat ((lookupA parameters "potential_pnl").getD (Val.num 0)),
    lookupA parameters "blocked_reason"⟩

/-- The record a successful `set_config` persists. -/
def newConfigOf (st : ManagerState) (parameters : Params) (changed_by : String)
    (symbol side strategy_id : Option String) : TradingConfig :=
  ⟨strategy_id, symbol, side, cleanParams parameters, newVersion st symbol side,
    (match scopeExisting st symbol side with | some e => e.created_at | none => st.now),
    st.now, changed_by, newMeta parameters⟩

/-- The audit record a successful `set_config` appends. -/
def auditOf (st : ManagerState) (parameters : Params) (changed_by : String)
    (symbol side : Option String) (reason : Option String) : TradingConfigAudit :=
  ⟨configType symbol side, symbol, side,
    (match scopeExisting st symbol side with | some _ => "update" | none => "create"),
    (scopeExisting st symbol side).map (fun e => e.parameters), some (cleanParams parameters),
    (scopeExisting st symbol side).map (fun e => e.version), some (newVersion st symbol side),
    changed_by, reason, st.now, some (newMeta parameters)⟩

/-- The manager state a successful `set_config` leaves behind. -/
def setStateOf (st : ManagerState) (parameters : Params) (changed_by : String)
    (symbol side strategy_id : Option String) (reason : Option String) : ManagerState :=
  invalidate_cache
    { st with store :=
        ((persistScope st.store (configType symbol side)
            (newConfigOf st parameters changed_by symbol side strategy_id)).2.add_audit_record
          (auditOf st parameters changed_by symbol side reason)) }
    symbol side strategy_id

theorem persistScope_fst (s : Store) (ct : String) (cfg : TradingConfig)
    (hw : s.writable = true) : (persistScope s ct cfg).1 = true := by
  unfold persistScope Store.set_global_config Store.set_symbol_config
    Store.set_symbol_side_config
  split
  · simp [hw]
  · split
    · simp [hw]
    · simp [hw]

theorem persistScope_connected (s : Store) (ct : String) (cfg : TradingConfig) :
    (persistScope s ct cfg).2.connected = s.connected := by
  unfold persistScope Store.set_global_config Store.set_symbol_config
    Store.set_symbol_side_config
  split
  · split <;> rfl
  · split
    · split <;> rfl
    · split <;> rfl

theorem persistScope_writable (s : Store) (ct : String) (cfg : TradingConfig) :
    (persistScope s ct cfg).2.writable = s.writable := by
  unfold persistScope Store.set_global_config Store.set_symbol_config
    Store.set_symbol_side_config
  split
  · split <;> rfl
  · split
    · split <;> rfl
    · split <;> rfl

theorem persistScope_audit_log (s : Store) (ct : String) (cfg : TradingConfig) :
    (persistScope s ct cfg).2.audit_log = s.audit_log := by
  unfold persistScope Store.set_global_config Store.set_symbol_config
    Store.set_symbol_side_config
  split
  · split <;> rfl
  · split
    · split <;> rfl
    · split <;> rfl

theorem persistScope_audit_seq (s : Store) (ct : String) (cfg : TradingConfig) :
    (persistScope s ct cfg).2.audit_seq = s.audit_seq := by
  unfold persistScope Store.set_global_config Store.set_symbol_config
    Store.set_symbol_side_config
  split
  · split <;> rfl
  · split
    · split <;> rfl
    · split <;> rfl

theorem getScopeConfig_persist (s : Store) (cfg : TradingConfig) (symbol side : Option String)
    (hw : s.writable = true) (hsym : cfg.symbol = symbol) (hside : cfg.side = side) :
    getScopeConfig (persistScope s (configType symbol side) cfg).2
      (configType symbol side) symbol side = some cfg := by
  rcases configType_cases symbol side with h | h | h <;> rw [h] <;>
    unfold persistScope getScopeConfig <;>
    simp [Store.set_global_config, Store.set_symbol_config, Store.set_symbol_side_config,
      Store.get_global_config, Store.get_symbol_config, Store.get_symbol_side_config,
      hw, hsym, hside, lookupA_setA_same]

theorem getScopeConfig_add_audit (s : Store) (a : TradingConfigAudit) (ct : String)
    (symbol side : Option String) :
    getScopeConfig (s.add_audit_record a) ct symbol side = getScopeConfig s ct symbol side := by
  unfold getScopeConfig
  split
  · rfl
  · split
    · rfl
    · rfl

theorem set_config_success_eq (st : ManagerState) (parameters : Params) (changed_by : String)
    (symbol side strategy_id : Option String) (reason : Option String)
    (hv : (validate_parameters (cleanParams parameters)).1 = true)
    (hconn : st.store.connected = true) (hw : st.store.writable = true) :
    set_config st parameters changed_by symbol side strategy_id reason false =
      ⟨true, some (newConfigOf st parameters changed_by symbol side strategy_id), [],
        setStateOf st parameters changed_by symbol side strategy_id reason⟩ := by
  simp only [set_config, hv, hconn, Bool.not_true, if_true, if_false]
  simp only [persistScope_fst _ _ _ hw, persistScope_connected, hconn, Bool.not_true]
  simp [setStateOf, newConfigOf, auditOf, scopeExisting, newVersion, newMeta]

theorem setStateOf_now (st : ManagerState) (parameters : Params) (changed_by : String)
    (symbol side strategy_id : Option String) (reason : Option String) :
    (setStateOf st parameters changed_by symbol side strategy_id reason).now = st.now := rfl

theorem setStateOf_ttl (st : ManagerState) (parameters : Params) (changed_by : String)
    (symbol side strategy_id : Option String) (reason : Option String) :
    (setStateOf st parameters changed_by symbol side strategy_id reason).cache_ttl_seconds =
      st.cache_ttl_seconds := rfl

theorem setStateOf_cache (st : ManagerState) (parameters : Params) (changed_by : String)
    (symbol side strategy_id : Option String) (reason : Option String) :
    (setStateOf st parameters changed_by symbol side strategy_id reason).cache =
      st.cache.filter (fun e => !(keyMatches symbol side strategy_id e.1)) := rfl

theorem setStateOf_connected (st : ManagerState) (parameters : Params) (changed_by : String)
    (symbol side strategy_id : Option String) (reason : Option String) :
    (setStateOf st parameters changed_by symbol side strategy_id reason).store.connected =
      st.store.connected := by
  simp [setStateOf, invalidate_cache, Store.add_audit_record, persistScope_connected]

theorem setStateOf_writable (st : ManagerState) (parameters : Params) (changed_by : String)
    (symbol side strategy_id : Option String) (reason : Option String) :
    (setStateOf st parameters changed_by symbol side strategy_id reason).store.writable =
      st.store.writable := by
  simp [setStateOf, invalidate_cache, Store.add_audit_record, persistScope_writable]

theorem setStateOf_audit_log (st : ManagerState) (parameters : Params) (changed_by : String)
    (symbol side strategy_id : Option String) (reason : Option String) :
    (setStateOf st parameters changed_by symbol side strategy_id reason).store.audit_log =
      ("audit-" ++ toString st.store.audit_seq,
        auditOf st parameters changed_by symbol side reason) :: st.store.audit_log := by
  simp [setStateOf, invalidate_cache, Store.add_audit_record, persistScope_audit_log,
    persistScope_audit_seq]

theorem setStateOf_scope (st : ManagerState) (parameters : Params) (changed_by : String)
    (symbol side strategy_id : Option String) (reason : Option String)
    (hw : st.store.writable = true) :
    getScopeConfig (setStateOf st parameters changed_by symbol side strategy_id reason).store
      (configType symbol side) symbol side =
      some (newConfigOf st parameters changed_by symbol side strategy_id) := by
  show getScopeConfig (Store.add_audit_record _ _) _ _ _ = _
  rw [getScopeConfig_add_audit]
  exact getScopeConfig_persist _ _ _ _ hw rfl rfl

/-! Claim C1: layered resolution on a cache miss. -/

/-- The layered resolution rule as the spec words it: start from the
library defaults and fold the four optional layers over it in order
(global, symbol if given, strategy if given, symbol+side if both given),
each applied only if it exists; a layer is given when the argument is a
non-empty string. -/
def layered_resolution_spec (store : Store) (symbol side strategy_id : Option String) :
    Params :=
  ([store.get_global_config,
    if pyTruthy symbol then store.get_symbol_config (strD symbol) else none,
    if pyTruthy strategy_id then store.get_strategy_config (strD strategy_id) else none,
    if pyTruthy symbol && pyTruthy side then
      store.get_symbol_side_config (strD symbol) (strD side)
    else none]).foldl applyLayer get_default_parameters

theorem applyLayer_ite (b : Bool) (r : Params) (x : Option TradingConfig) :
    (if b then applyLayer r x else r) = applyLayer r (if b then x else none) := by
  cases b <;> simp [applyLayer]

theorem resolveLayers_eq_spec (store : Store) (symbol side strategy_id : Option String) :
    resolveLayers store symbol side strategy_id =
      layered_resolution_spec store symbol side strategy_id := by
  unfold resolveLayers layered_resolution_spec
  simp only [List.foldl, applyLayer_ite]

/-- The example store of the layered-resolution example: global sets
leverage 10 and stop_loss_pct 2.0, symbol BTCUSDT sets leverage 20,
symbol+side (BTCUSDT, LONG) sets stop_loss_pct 1.5. -/
def c1ExampleStore : Store :=
  ⟨true, true,
    some ⟨none, none, none, [("leverage", .num 10), ("stop_loss_pct", .num 2)],
      1, 0, 0, "ops", ⟨0, none⟩⟩,
    [("BTCUSDT", ⟨none, some "BTCUSDT", none, [("leverage", .num 20)],
      1, 0, 0, "ops", ⟨0, none⟩⟩)],
    [],
    [(("BTCUSDT", "LONG"), ⟨none, some "BTCUSDT", some "LONG",
      [("stop_loss_pct", .num (3 / 2))], 1, 0, 0, "ops", ⟨0, none⟩⟩)],
    [], 0⟩

/-- A manager over the example store with an empty cache. -/
def c1ExampleState : ManagerState := ⟨c1ExampleStore, [], 100, 60⟩

/-- C1: every `get_config` call that misses the cache resolves, when the
store adapter is connected, to the library defaults sequentially merged
with the global, symbol (if given), strategy (if given) and symbol+side
(if both given) layers, each applied only if it exists and later layers
overriding earlier ones key-by-key; in particular on the example store,
`get_config(symbol="BTCUSDT", side="LONG")` resolves leverage to 20 and
stop_loss_pct to 1.5. -/
theorem get_config_layered_resolution :
    (∀ (st : ManagerState) (symbol side strategy_id : Option String),
      st.store.connected = true →
      cacheFresh st (get_cache_key symbol side strategy_id) = false →
      (get_config st symbol side strategy_id).params =
        layered_resolution_spec st.store symbol side strategy_id) ∧
    lookupA (get_config c1ExampleState (some "BTCUSDT") (some "LONG") none).params
      "leverage" = some (.num 20) ∧
    lookupA (get_config c1ExampleState (some "BTCUSDT") (some "LONG") none).params
      "stop_loss_pct" = some (.num (3 / 2)) := by
  refine ⟨?_, by rfl, by rfl⟩
  intro st symbol side strategy_id hconn hmiss
  simp only [get_config]
  unfold cacheFresh at hmiss
  cases hl : lookupA st.cache (get_cache_key symbol side strategy_id) with
  | none =>
    simp only [get_config_resolve, hconn, if_true]
    exact resolveLayers_eq_spec _ _ _ _
  | some e =>
    cases e with
    | mk cfg ts =>
      rw [hl] at hmiss
      have hmiss2 : ¬(st.now - ts < st.cache_ttl_seconds) := by simpa using hmiss
      simp only [get_config_resolve, hconn, hmiss2, if_true, if_false]
      exact resolveLayers_eq_spec _ _ _ _

/-- Witness for C1 at the example store: the hypotheses hold there and the
theorem applies. -/
theorem get_config_layered_resolution_check :
    c1ExampleState.store.connected = true ∧
    cacheFresh c1ExampleState (get_cache_key (some "BTCUSDT") (some "LONG") none) = false ∧
    (get_config c1ExampleState (some "BTCUSDT") (some "LONG") none).params =
      layered_resolution_spec c1ExampleState.store (some "BTCUSDT") (some "LONG") none :=
  ⟨rfl, rfl,
    get_config_layered_resolution.1 c1ExampleState (some "BTCUSDT") (some "LONG") none rfl rfl⟩

/-! Claim C2: version monotonicity of sequential writes to one scope. -/

/-- C2: starting from a store with no record for a scope, two sequential
successful `set_config` calls to that exact scope produce versions 1 then
2, and the second call appends an audit record with action "update",
version_before 1, version_after 2 and parameters_before equal to the first
call's cleaned parameters. -/
theorem set_config_version_monotonic
    (st : ManagerState) (p1 p2 : Params) (cb1 cb2 : String)
    (symbol side strat1 strat2 r1 r2 : Option String)
    (hconn : st.store.connected = true) (hw : st.store.writable = true)
    (hnone : scopeExisting st symbol side = none)
    (hv1 : (validate_parameters (cleanParams p1)).1 = true)
    (hv2 : (validate_parameters (cleanParams p2)).1 = true) :
    let R1 := set_config st p1 cb1 symbol side strat1 r1 false
    let R2 := set_config R1.state p2 cb2 symbol side strat2 r2 false
    R1.ok = true ∧
    R1.config.map (fun c => (c.version, c.parameters)) = some (1, cleanParams p1) ∧
    R2.ok = true ∧
    R2.config.map (fun c => c.version) = some 2 ∧
    R2.state.store.audit_log.tail = R1.state.store.audit_log ∧
    R2.state.store.audit_log.head?.map
      (fun e => (e.2.action, e.2.version_before, e.2.version_after, e.2.parameters_before)) =
      some ("update", some 1, some 2, some (cleanParams p1)) := by
  have h1 := set_config_success_eq st p1 cb1 symbol side strat1 r1 hv1 hconn hw
  have hver1 : newVersion st symbol side = 1 := by
    unfold newVersion
    rw [hnone]
  have hconn1 : (set_config st p1 cb1 symbol side strat1 r1 false).state.store.connected = true := by
    rw [h1]
    rw [setStateOf_connected]
    exact hconn
  have hw1 : (set_config st p1 cb1 symbol side strat1 r1 false).state.store.writable = true := by
    rw [h1]
    rw [setStateOf_writable]
    exact hw
  have h2 := set_config_success_eq (set_config st p1 cb1 symbol side strat1 r1 false).state
    p2 cb2 symbol side strat2 r2 hv2 hconn1 hw1
  have hex1 : scopeExisting (set_config st p1 cb1 symbol side strat1 r1 false).state symbol side =
      some (newConfigOf st p1 cb1 symbol side strat1) := by
    rw [h1]
    exact setStateOf_scope st p1 cb1 symbol side strat1 r1 hw
  have hcfg1ver : (newConfigOf st p1 cb1 symbol side strat1).version = 1 := hver1
  have hver2 : newVersion (set_config st p1 cb1 symbol side strat1 r1 false).state symbol side = 2 := by
    unfold newVersion
    rw [hex1]
    simp [hcfg1ver]
  refine ⟨?_, ?_, ?_, ?_, ?_, ?_⟩
  · rw [h1]
  · rw [h1]
    simp [newConfigOf, hver1]
  · rw [h2]
  · rw [h2]
    simp [newConfigOf, hver2]
  · rw [h2]
    rw [setStateOf_audit_log]
    rfl
  · rw [h2]
    rw [setStateOf_audit_log]
    simp only [List.head?, Option.map]
    unfold auditOf
    rw [hex1]
    simp [hver2, newConfigOf, hcfg1ver, hver1]

/-- Witness state for the write-path claims: a connected, writable store
holding nothing, an empty cache, logical time 0, TTL 60. -/
def emptyState : ManagerState := ⟨⟨true, true, none, [], [], [], [], 0⟩, [], 0, 60⟩

/-- Witness for C2 at a concrete scope and parameters. -/
theorem set_config_version_monotonic_check :
    emptyState.store.connected = true ∧
    emptyState.store.writable = true ∧
    scopeExisting emptyState (some "BTCUSDT") none = none ∧
    (validate_parameters (cleanParams [("leverage", Val.num 15)])).1 = true ∧
    (validate_parameters (cleanParams [("leverage", Val.num 20)])).1 = true ∧
    (let R1 := set_config emptyState [("leverage", Val.num 15)] "ops"
        (some "BTCUSDT") none none none false
     let R2 := set_config R1.state [("leverage", Val.num 20)] "ops"
        (some "BTCUSDT") none none none false
     R1.ok = true ∧
     R1.config.map (fun c => (c.version, c.parameters)) =
       some (1, cleanParams [("leverage", Val.num 15)]) ∧
     R2.ok = true ∧
     R2.config.map (fun c => c.version) = some 2 ∧
     R2.state.store.audit_log.tail = R1.state.store.audit_log ∧
     R2.state.store.audit_log.head?.map
       (fun e => (e.2.action, e.2.version_before, e.2.version_after, e.2.parameters_before)) =
       some ("update", some 1, some 2, some (cleanParams [("leverage", Val.num 15)]))) :=
  ⟨rfl, rfl, rfl, by decide, by decide,
    set_config_version_monotonic emptyState [("leverage", Val.num 15)]
      [("leverage", Val.num 20)] "ops" "ops" (some "BTCUSDT") none none none none none
      rfl rfl rfl (by decide) (by decide)⟩

/-! Claim C3: rollback-by-version round trip. -/

theorem cleanParams_idem (p : Params) : cleanParams (cleanParams p) = cleanParams p := by
  unfold cleanParams
  rw [List.filter_filter]
  congr 1
  funext kv
  cases h1 : decide (kv.1 = "potential_pnl") <;> cases h2 : decide (kv.1 = "blocked_reason") <;>
    simp [h1, h2]

theorem truthyParams_of_ne_nil (p : Params) (h : p ≠ []) :
    truthyParams (some p) = true := by
  cases p with
  | nil => exact absurd rfl h
  | cons a l => rfl

/-- C3 counterexample: the claim fails when version 1 holds an empty
parameter set. Writing version 1 with parameters `{}` and version 2 with
leverage 15 succeeds, but rolling back to target_version 1 returns
failure with "Version 1 not found" (the empty stored `parameters_after` is
falsy), instead of succeeding as the claim states for every pair of
writes. -/
theorem rollback_empty_params_not_found :
    (set_config emptyState [] "ops" none none none none false).ok = true ∧
    (set_config emptyState [] "ops" none none none none false).config.map
      (fun c => c.version) = some 1 ∧
    (set_config (set_config emptyState [] "ops" none none none none false).state
      [("leverage", Val.num 15)] "ops" none none none none false).ok = true ∧
    (set_config (set_config emptyState [] "ops" none none none none false).state
      [("leverage", Val.num 15)] "ops" none none none none false).config.map
      (fun c => c.version) = some 2 ∧
    (rollback_config
      (set_config (set_config emptyState [] "ops" none none none none false).state
        [("leverage", Val.num 15)] "ops" none none none none false).state
      "ops" none none (some 1) none none).ok = false ∧
    (rollback_config
      (set_config (set_config emptyState [] "ops" none none none none false).state
        [("leverage", Val.num 15)] "ops" none none none none false).state
      "ops" none none (some 1) none none).errors = ["Version 1 not found"] := by
  refine ⟨rfl, rfl, rfl, rfl, rfl, rfl⟩

/-- C3 (amended): after two successful writes producing versions 1 and 2
for a scope, and provided version 1's cleaned parameter set is non-empty
(rollback treats an empty stored parameter set as absent), rollback with
target_version 1 succeeds through a normal `set_config` write, producing a
new record with version 3 whose parameters equal version 1's parameters,
and appending a new audit record; the version counter is never rewound. -/
theorem rollback_by_version_roundtrip
    (st : ManagerState) (p1 p2 : Params) (cb1 cb2 cbr : String)
    (symbol side : Option String) (r1 r2 rr : Option String)
    (hconn : st.store.connected = true) (hw : st.store.writable = true)
    (hnone : scopeExisting st symbol side = none)
    (hv1 : (validate_parameters (cleanParams p1)).1 = true)
    (hv2 : (validate_parameters (cleanParams p2)).1 = true)
    (hne : cleanParams p1 ≠ []) :
    let R1 := set_config st p1 cb1 symbol side none r1 false
    let R2 := set_config R1.state p2 cb2 symbol side none r2 false
    let RB := rollback_config R2.state cbr symbol side (some 1) none rr
    RB.ok = true ∧
    RB.config.map (fun c => (c.version, c.parameters)) = some (3, cleanParams p1) ∧
    RB.state.store.audit_log.tail = R2.state.store.audit_log := by
  have h1 := set_config_success_eq st p1 cb1 symbol side none r1 hv1 hconn hw
  have hconn1 : (set_config st p1 cb1 symbol side none r1 false).state.store.connected = true := by
    rw [h1, setStateOf_connected]
    exact hconn
  have hw1 : (set_config st p1 cb1 symbol side none r1 false).state.store.writable = true := by
    rw [h1, setStateOf_writable]
    exact hw
  have h2 := set_config_success_eq (set_config st p1 cb1 symbol side none r1 false).state
    p2 cb2 symbol side none r2 hv2 hconn1 hw1
  have hconn2 : (set_config (set_config st p1 cb1 symbol side none r1 false).state
      p2 cb2 symbol side none r2 false).state.store.connected = true := by
    rw [h2, setStateOf_connected]
    exact hconn1
  have hw2 : (set_config (set_config st p1 cb1 symbol side none r1 false).state
      p2 cb2 symbol side none r2 false).state.store.writable = true := by
    rw [h2, setStateOf_writable]
    exact hw1
  have hver1 : newVersion st symbol side = 1 := by
    unfold newVersion
    rw [hnone]
  have hex1 : scopeExisting (set_config st p1 cb1 symbol side none r1 false).state symbol side =
      some (newConfigOf st p1 cb1 symbol side none) := by
    rw [h1]
    exact setStateOf_scope st p1 cb1 symbol side none r1 hw
  have hver2 : newVersion (set_config st p1 cb1 symbol side none r1 false).state symbol side = 2 := by
    unfold newVersion
    rw [hex1]
    simp [show (newConfigOf st p1 cb1 symbol side none).version = 1 from hver1]
  have hex2 : scopeExisting (set_config (set_config st p1 cb1 symbol side none r1 false).state
      p2 cb2 symbol side none r2 false).state symbol side =
      some (newConfigOf (set_config st p1 cb1 symbol side none r1 false).state
        p2 cb2 symbol side none) := by
    rw [h2]
    exact setStateOf_scope _ p2 cb2 symbol side none r2 hw1
  have hver3 : newVersion (set_config (set_config st p1 cb1 symbol side none r1 false).state
      p2 cb2 symbol side none r2 false).state symbol side = 3 := by
    unfold newVersion
    rw [hex2]
    simp [show (newConfigOf (set_config st p1 cb1 symbol side none r1 false).state
      p2 cb2 symbol side none).version = 2 from hver2]
  have hlog2 : (set_config (set_config st p1 cb1 symbol side none r1 false).state
      p2 cb2 symbol side none r2 false).state.store.audit_log =
      ("audit-" ++ toString (set_config st p1 cb1 symbol side none r1 false).state.store.audit_seq,
        auditOf (set_config st p1 cb1 symbol side none r1 false).state p2 cb2 symbol side r2) ::
      ("audit-" ++ toString st.store.audit_seq, auditOf st p1 cb1 symbol side r1) ::
        st.store.audit_log := by
    rw [h2, setStateOf_audit_log]
    congr 1
    rw [h1, setStateOf_audit_log]
  have hva1 : (auditOf st p1 cb1 symbol side r1).version_after = some 1 := by
    show some (newVersion st symbol side) = some 1
    rw [hver1]
  have hva2 : (auditOf (set_config st p1 cb1 symbol side none r1 false).state
      p2 cb2 symbol side r2).version_after = some 2 := by
    show some (newVersion (set_config st p1 cb1 symbol side none r1 false).state symbol side) =
      some 2
    rw [hver2]
  have htp : truthyParams (some (cleanParams p1)) = true := truthyParams_of_ne_nil _ hne
  have hgv : get_config_by_version (set_config (set_config st p1 cb1 symbol side none r1 false).state
      p2 cb2 symbol side none r2 false).state 1 symbol side = some (cleanParams p1) := by
    unfold get_config_by_version
    rw [if_neg (by norm_num)]
    simp only [hconn2, Bool.not_true, Bool.false_eq_true, if_false]
    unfold Store.get_audit_record_by_version
    rw [hlog2]
    rw [List.find?_cons_of_neg _ (by
      simp only [decide_eq_true_eq]
      intro hcontra
      have hd := hcontra.2.2.2
      rw [hva2] at hd
      simp at hd)]
    rw [List.find?_cons_of_pos _ (by
      simp only [decide_eq_true_eq]
      refine ⟨rfl, rfl, rfl, ?_⟩
      rw [hva1]
      rfl)]
    simp [htp, show (auditOf st p1 cb1 symbol side r1).parameters_after =
      some (cleanParams p1) from rfl]
  have hroll : rollback_config (set_config (set_config st p1 cb1 symbol side none r1 false).state
      p2 cb2 symbol side none r2 false).state cbr symbol side (some 1) none rr =
      set_config (set_config (set_config st p1 cb1 symbol side none r1 false).state
        p2 cb2 symbol side none r2 false).state (cleanParams p1) cbr symbol side none
        (some (reasonOr rr)) false := by
    unfold rollback_config
    simp only [pyTruthy, Bool.false_eq_true, if_false]
    rw [if_neg (by norm_num)]
    rw [hgv]
    simp [htp]
  have hv3 : (validate_parameters (cleanParams (cleanParams p1))).1 = true := by
    rw [cleanParams_idem]
    exact hv1
  have h3 := set_config_success_eq (set_config (set_config st p1 cb1 symbol side none r1 false).state
    p2 cb2 symbol side none r2 false).state (cleanParams p1) cbr symbol side none
    (some (reasonOr rr)) hv3 hconn2 hw2
  refine ⟨?_, ?_, ?_⟩
  · rw [hroll, h3]
  · rw [hroll, h3]
    simp [newConfigOf, hver3, cleanParams_idem]
  · rw [hroll, h3, setStateOf_audit_log]
    rfl

/-- Witness for C3 at concrete parameters with a non-empty version 1. -/
theorem rollback_by_version_roundtrip_check :
    emptyState.store.connected = true ∧
    emptyState.store.writable = true ∧
    scopeExisting emptyState (some "BTCUSDT") none = none ∧
    (validate_parameters (cleanParams [("leverage", Val.num 15)])).1 = true ∧
    (validate_parameters (cleanParams [("leverage", Val.num 20)])).1 = true ∧
    cleanParams [("leverage", Val.num 15)] ≠ [] ∧
    (let R1 := set_config emptyState [("leverage", Val.num 15)] "ops"
        (some "BTCUSDT") none none none false
     let R2 := set_config R1.state [("leverage", Val.num 20)] "ops"
        (some "BTCUSDT") none none none false
     let RB := rollback_config R2.state "admin" (some "BTCUSDT") none (some 1) none none
     RB.ok = true ∧
     RB.config.map (fun c => (c.version, c.parameters)) =
       some (3, cleanParams [("leverage", Val.num 15)]) ∧
     RB.state.store.audit_log.tail = R2.state.store.audit_log) :=
  ⟨rfl, rfl, rfl, by decide, by decide, by decide,
    rollback_by_version_roundtrip emptyState [("leverage", Val.num 15)]
      [("leverage", Val.num 20)] "ops" "ops" "admin" (some "BTCUSDT") none none none none
      rfl rfl rfl (by decide) (by decide) (by decide)⟩

/-! Claim C4: `set_config` is fail-closed. -/

theorem set_config_invalid_eq (st : ManagerState) (p : Params) (cb : String)
    (symbol side strat r : Option String) (vonly : Bool)
    (h : (validate_parameters (cleanParams p)).1 = false) :
    set_config st p cb symbol side strat r vonly =
      ⟨false, none, (validate_parameters (cleanParams p)).2, st⟩ := by
  simp [set_config, h]

theorem set_config_validate_only_eq (st : ManagerState) (p : Params) (cb : String)
    (symbol side strat r : Option String)
    (h : (validate_parameters (cleanParams p)).1 = true) :
    set_config st p cb symbol side strat r true = ⟨true, none, [], st⟩ := by
  simp [set_config, h]

theorem persistScope_fail (s : Store) (ct : String) (cfg : TradingConfig)
    (hw : s.writable = false) : persistScope s ct cfg = (false, s) := by
  unfold persistScope Store.set_global_config Store.set_symbol_config
    Store.set_symbol_side_config
  split
  · simp [hw]
  · split
    · simp [hw]
    · simp [hw]

theorem set_config_persist_fail_eq (st : ManagerState) (p : Params) (cb : String)
    (symbol side strat r : Option String)
    (hv : (validate_parameters (cleanParams p)).1 = true)
    (hfail : st.store.connected = false ∨ st.store.writable = false) :
    set_config st p cb symbol side strat r false =
      ⟨false, none, ["Failed to save configuration"], st⟩ := by
  rcases hfail with hc | hwf
  · simp [set_config, hv, hc]
  · by_cases hc : st.store.connected = true
    · simp [set_config, hv, hc, persistScope_fail _ _ _ hwf]
    · simp only [Bool.not_eq_true] at hc
      simp [set_config, hv, hc]

/-- C4: `set_config` is fail-closed and effect-free unless every
precondition holds: validation failure returns the validator's errors and
leaves the state untouched; validate_only returns success with no record
and no state change; a persistence failure (store disconnected or write
rejected) returns the fixed error with no audit append and no cache
invalidation, leaving the state exactly as before; and only a successful
persist yields success with the new record, exactly one appended audit
record and the scope's cache invalidation. -/
theorem set_config_fail_closed :
    (∀ (st : ManagerState) (p : Params) (cb : String) (symbol side strat r : Option String)
      (vonly : Bool), (validate_parameters (cleanParams p)).1 = false →
      set_config st p cb symbol side strat r vonly =
        ⟨false, none, (validate_parameters (cleanParams p)).2, st⟩) ∧
    (∀ (st : ManagerState) (p : Params) (cb : String) (symbol side strat r : Option String),
      (validate_parameters (cleanParams p)).1 = true →
      set_config st p cb symbol side strat r true = ⟨true, none, [], st⟩) ∧
    (∀ (st : ManagerState) (p : Params) (cb : String) (symbol side strat r : Option String),
      (validate_parameters (cleanParams p)).1 = true →
      st.store.connected = false ∨ st.store.writable = false →
      set_config st p cb symbol side strat r false =
        ⟨false, none, ["Failed to save configuration"], st⟩) ∧
    (∀ (st : ManagerState) (p : Params) (cb : String) (symbol side strat r : Option String),
      (validate_parameters (cleanParams p)).1 = true →
      st.store.connected = true → st.store.writable = true →
      (set_config st p cb symbol side strat r false).ok = true ∧
      (set_config st p cb symbol side strat r false).errors = [] ∧
      (set_config st p cb symbol side strat r false).config =
        some (newConfigOf st p cb symbol side strat) ∧
      (set_config st p cb symbol side strat r false).state.store.audit_log =
        ("audit-" ++ toString st.store.audit_seq, auditOf st p cb symbol side r) ::
          st.store.audit_log ∧
      (set_config st p cb symbol side strat r false).state.cache =
        st.cache.filter (fun e => !(keyMatches symbol side strat e.1))) := by
  refine ⟨set_config_invalid_eq, set_config_validate_only_eq, set_config_persist_fail_eq,
    ?_⟩
  intro st p cb symbol side strat r hv hconn hw
  have h := set_config_success_eq st p cb symbol side strat r hv hconn hw
  refine ⟨by rw [h], by rw [h], by rw [h], ?_, ?_⟩
  · rw [h]
    exact setStateOf_audit_log st p cb symbol side strat r
  · rw [h]
    exact setStateOf_cache st p cb symbol side strat r

/-- A manager whose store adapter is disconnected. -/
def disconnectedState : ManagerState := ⟨⟨false, true, none, [], [], [], [], 0⟩, [], 0, 60⟩

/-- Witness for C4: the three failure paths and the hypotheses hold at
concrete inputs (leverage 999 is out of bounds, leverage 15 is valid). -/
theorem set_config_fail_closed_check :
    (validate_parameters (cleanParams [("leverage", Val.num 999)])).1 = false ∧
    set_config emptyState [("leverage", Val.num 999)] "ops" none none none none false =
      ⟨false, none, (validate_parameters (cleanParams [("leverage", Val.num 999)])).2,
        emptyState⟩ ∧
    (validate_parameters (cleanParams [("leverage", Val.num 15)])).1 = true ∧
    set_config emptyState [("leverage", Val.num 15)] "ops" none none none none true =
      ⟨true, none, [], emptyState⟩ ∧
    disconnectedState.store.connected = false ∧
    set_config disconnectedState [("leverage", Val.num 15)] "ops" none none none none false =
      ⟨false, none, ["Failed to save configuration"], disconnectedState⟩ :=
  ⟨by decide,
    set_config_fail_closed.1 emptyState [("leverage", Val.num 999)] "ops" none none none none
      false (by decide),
    by decide,
    set_config_fail_closed.2.1 emptyState [("leverage", Val.num 15)] "ops" none none none none
      (by decide),
    rfl,
    set_config_fail_closed.2.2.1 disconnectedState [("leverage", Val.num 15)] "ops"
      none none none none (by decide) (Or.inl rfl)⟩

/-! Claim C5: a symbol write evicts every cache key with that symbol part. -/

/-- C5: for every cache state (restricted to well-formed keys, on which the
source's key unpacking does not raise) and every symbol S, a successful
`set_config` with symbol S and no side removes every cache entry whose
key's symbol part equals S, regardless of the entry's side and strategy
parts. -/
theorem set_config_invalidates_symbol_entries
    (st : ManagerState) (p : Params) (cb : String) (S : String) (r : Option String)
    (hwf : ∀ e ∈ st.cache, (keyParts e.1).isSome = true)
    (hok : (set_config st p cb (some S) none none r false).ok = true) :
    ∀ e ∈ st.cache, (keyParts e.1).map (fun t => t.1) = some S →
      lookupA (set_config st p cb (some S) none none r false).state.cache e.1 = none := by
  by_cases hv : (validate_parameters (cleanParams p)).1 = true
  · by_cases hconn : st.store.connected = true
    · by_cases hw : st.store.writable = true
      · have h := set_config_success_eq st p cb (some S) none none r hv hconn hw
        rw [h]
        rw [setStateOf_cache]
        intro e _ hS
        apply lookupA_filter_none
        intro e2 _ hk2
        rw [hk2]
        cases hkp : keyParts e.1 with
        | none => rw [hkp] at hS; exact absurd hS (by simp)
        | some t =>
          rw [hkp] at hS
          have ht1 : t.1 = S := by simpa using hS
          simp [keyMatches, hkp, ht1]
      · have hfb : st.store.writable = false := by
          simpa using hw
        rw [set_config_persist_fail_eq st p cb (some S) none none r hv (Or.inr hfb)] at hok
        exact absurd hok (by simp)
    · have hfb : st.store.connected = false := by
        simpa using hconn
      rw [set_config_persist_fail_eq st p cb (some S) none none r hv (Or.inl hfb)] at hok
      exact absurd hok (by simp)
  · have hfb : (validate_parameters (cleanParams p)).1 = false := by
      simpa using hv
    rw [set_config_invalid_eq st p cb (some S) none none r false hfb] at hok
    exact absurd hok (by simp)

/-- Witness cache state for C5: two entries under symbol BTCUSDT with
different side and strategy parts. -/
def c5CacheState : ManagerState :=
  ⟨⟨true, true, none, [], [], [], [], 0⟩,
    [("BTCUSDT:LONG:momentum", ([("leverage", Val.num 7)], 0)),
     ("BTCUSDT:SHORT:all_strategies", ([("leverage", Val.num 8)], 0))], 0, 60⟩

/-- Witness for C5: `set_config(symbol="BTCUSDT")` evicts both cached
entries. -/
theorem set_config_invalidates_symbol_entries_check :
    (set_config c5CacheState [("leverage", Val.num 15)] "ops" (some "BTCUSDT") none none
      none false).ok = true ∧
    lookupA (set_config c5CacheState [("leverage", Val.num 15)] "ops" (some "BTCUSDT") none
      none none false).state.cache "BTCUSDT:LONG:momentum" = none ∧
    lookupA (set_config c5CacheState [("leverage", Val.num 15)] "ops" (some "BTCUSDT") none
      none none false).state.cache "BTCUSDT:SHORT:all_strategies" = none :=
  ⟨by decide,
    set_config_invalidates_symbol_entries c5CacheState [("leverage", Val.num 15)] "ops"
      "BTCUSDT" none (by decide) (by decide)
      ("BTCUSDT:LONG:momentum", ([("leverage", Val.num 7)], 0)) (by decide) (by decide),
    set_config_invalidates_symbol_entries c5CacheState [("leverage", Val.num 15)] "ops"
      "BTCUSDT" none (by decide) (by decide)
      ("BTCUSDT:SHORT:all_strategies", ([("leverage", Val.num 8)], 0)) (by decide) (by decide)⟩

/-! Claim C6: visibility of a write through the cache. -/

/-- C6 counterexample: after a successful global `set_config`, the very
next `get_config` to that exact scope within the TTL does invoke the store
adapter again (set_config invalidates the cache, it does not populate it),
and its result is the layered resolution, not the just-written parameter
set (library defaults contribute keys the write never set). -/
theorem get_after_set_hits_store :
    let R := set_config emptyState [("leverage", Val.num 15)] "ops" none none none none false
    let G := get_config R.state none none none
    R.ok = true ∧ G.storeRead = true ∧
    G.params ≠ [("leverage", Val.num 15)] ∧
    lookupA G.params "take_profit_pct" = some (Val.num 4) :=
  ⟨rfl, rfl, by decide, rfl⟩

/-- A scope component is either absent or a non-empty string without the
cache-key delimiter (the delimiter ambiguity is flagged in the spec's
design notes). -/
def scopeArgOk : Option String → Prop := fun o =>
  match o with
  | none => True
  | some s => s ≠ "" ∧ ':' ∉ s.data

theorem splitChar_no_colon (l : List Char) (h : ':' ∉ l) : splitChar l = [l] := by
  induction l with
  | nil => rfl
  | cons c rest ih =>
    have hc : ¬(c = ':') := by
      intro hc
      exact h (by rw [hc]; exact List.mem_cons_self _ _)
    have hrest : ':' ∉ rest := fun hm => h (List.mem_cons_of_mem _ hm)
    simp only [splitChar, ih hrest]
    rw [if_neg hc]

theorem splitChar_append (a rest : List Char) (h : ':' ∉ a) :
    splitChar (a ++ ':' :: rest) = a :: splitChar rest := by
  induction a with
  | nil => simp [splitChar]
  | cons c tl ih =>
    have hc : ¬(c = ':') := by
      intro hc
      exact h (by rw [hc]; exact List.mem_cons_self _ _)
    have htl : ':' ∉ tl := fun hm => h (List.mem_cons_of_mem _ hm)
    rw [List.cons_append]
    simp only [splitChar]
    rw [if_neg hc, ih htl]

theorem keyParts_cacheKey (x y z : String) (hx : ':' ∉ x.data) (hy : ':' ∉ y.data)
    (hz : ':' ∉ z.data) :
    keyParts (x ++ ":" ++ y ++ ":" ++ z) = some (x, y, z) := by
  have hdata : (x ++ ":" ++ y ++ ":" ++ z).data =
      x.data ++ ':' :: (y.data ++ ':' :: z.data) := by
    show (x.data ++ [':'] ++ y.data ++ [':'] ++ z.data) = _
    simp
  unfold keyParts pySplit2
  rw [hdata, splitChar_append _ _ hx, splitChar_append _ _ hy, splitChar_no_colon _ hz]
  simp [joinColon]

theorem orDefault_no_colon (o : Option String) (d : String) (ho : scopeArgOk o)
    (hd : ':' ∉ d.data) : ':' ∉ (orDefault o d).data := by
  cases o with
  | none => exact hd
  | some s =>
    simp only [orDefault]
    rw [if_neg ho.1]
    exact ho.2

theorem keyParts_get_cache_key (symbol side : Option String)
    (hsym : scopeArgOk symbol) (hside : scopeArgOk side) :
    keyParts (get_cache_key symbol side none) =
      some (orDefault symbol "global", orDefault side "all", "all_strategies") := by
  unfold get_cache_key
  exact keyParts_cacheKey _ _ _
    (orDefault_no_colon _ _ hsym (by decide))
    (orDefault_no_colon _ _ hside (by decide))
    (by decide)

theorem keyMatches_get_cache_key (symbol side : Option String)
    (hsym : scopeArgOk symbol) (hside : scopeArgOk side) :
    keyMatches symbol side none (get_cache_key symbol side none) = true := by
  unfold keyMatches
  rw [keyParts_get_cache_key symbol side hsym hside]
  cases symbol with
  | none =>
    cases side with
    | none => rfl
    | some s =>
      simp [orDefault, if_neg hside.1]
  | some s =>
    cases side with
    | none =>
      simp [orDefault, if_neg hsym.1]
    | some s2 =>
      simp [orDefault, if_neg hsym.1, if_neg hside.1]

theorem getScopeConfig_global_eq (s : Store) (symbol side : Option String) :
    getScopeConfig s "global" symbol side = s.get_global_config := by
  unfold getScopeConfig
  rw [if_pos rfl]

theorem getScopeConfig_symbol_eq (s : Store) (symbol side : Option String) :
    getScopeConfig s "symbol" symbol side = s.get_symbol_config (strD symbol) := by
  unfold getScopeConfig
  rw [if_neg (by decide), if_pos rfl]

theorem getScopeConfig_symbol_side_eq (s : Store) (symbol side : Option String) :
    getScopeConfig s "symbol_side" symbol side =
      s.get_symbol_side_config (strD symbol) (strD side) := by
  unfold getScopeConfig
  rw [if_neg (by decide), if_neg (by decide)]

/-- C6 (amended): after a successful `set_config` to a scope (components
absent or non-empty and delimiter-free), a `get_config` to that exact
scope does re-read the store adapter — the write invalidates the cache
rather than populating it — but its result reflects the just-written
parameters: every written key resolves to its written value; and a second
`get_config` within the TTL returns the same result from the cache with no
further store read. -/
theorem get_after_set_reflects_write
    (st : ManagerState) (p : Params) (cb : String) (symbol side : Option String)
    (r : Option String)
    (hconn : st.store.connected = true) (hw : st.store.writable = true)
    (hv : (validate_parameters (cleanParams p)).1 = true)
    (hsym : scopeArgOk symbol) (hside : scopeArgOk side)
    (httl : 0 < st.cache_ttl_seconds) :
    let R := set_config st p cb symbol side none r false
    let G1 := get_config R.state symbol side none
    let G2 := get_config G1.state symbol side none
    G1.storeRead = true ∧
    (∀ k v, lookupA (cleanParams p) k = some v → lookupA G1.params k = some v) ∧
    G2.storeRead = false ∧ G2.params = G1.params := by
  have h := set_config_success_eq st p cb symbol side none r hv hconn hw
  have hstate : (set_config st p cb symbol side none r false).state =
      setStateOf st p cb symbol side none r := by
    rw [h]
  have hmiss : lookupA (setStateOf st p cb symbol side none r).cache
      (get_cache_key symbol side none) = none := by
    rw [setStateOf_cache]
    apply lookupA_filter_none
    intro e2 _ hk
    simp [hk, keyMatches_get_cache_key symbol side hsym hside]
  have hconnS : (setStateOf st p cb symbol side none r).store.connected = true := by
    rw [setStateOf_connected]
    exact hconn
  have hG1 : get_config (setStateOf st p cb symbol side none r) symbol side none =
      ⟨resolveLayers (setStateOf st p cb symbol side none r).store symbol side none, true,
        { setStateOf st p cb symbol side none r with
          cache := setA (setStateOf st p cb symbol side none r).cache
            (get_cache_key symbol side none)
            (resolveLayers (setStateOf st p cb symbol side none r).store symbol side none,
              (setStateOf st p cb symbol side none r).now) }⟩ := by
    simp only [get_config]
    rw [hmiss]
    simp [get_config_resolve, hconnS]
  have hparams : (newConfigOf st p cb symbol side none).parameters = cleanParams p := rfl
  have hpoint : ∀ k v, lookupA (cleanParams p) k = some v →
      lookupA (resolveLayers (setStateOf st p cb symbol side none r).store symbol side none)
        k = some v := by
    intro k v hkv
    have hscope := setStateOf_scope st p cb symbol side none r hw
    unfold resolveLayers
    cases hsymT : pyTruthy symbol with
    | false =>
      have hct : configType symbol side = "global" := by
        simp [configType, hsymT]
      rw [hct, getScopeConfig_global_eq] at hscope
      simp only [hsymT, Bool.false_and, pyTruthy, Bool.false_eq_true, if_false]
      rw [hscope]
      simp only [applyLayer]
      exact lookupA_merge_over _ _ _ _ (by rw [hparams]; exact hkv)
    | true =>
      cases hsideT : pyTruthy side with
      | false =>
        have hct : configType symbol side = "symbol" := by
          simp [configType, hsymT, hsideT]
        rw [hct, getScopeConfig_symbol_eq] at hscope
        simp only [hsymT, hsideT, Bool.true_and, pyTruthy, Bool.false_eq_true, if_false,
          if_true]
        rw [hscope]
        simp only [applyLayer]
        exact lookupA_merge_over _ _ _ _ (by rw [hparams]; exact hkv)
      | true =>
        have hct : configType symbol side = "symbol_side" := by
          simp [configType, hsymT, hsideT]
        rw [hct, getScopeConfig_symbol_side_eq] at hscope
        simp only [hsymT, hsideT, Bool.true_and, pyTruthy, Bool.false_eq_true, if_false,
          if_true]
        rw [hscope]
        simp only [applyLayer]
        exact lookupA_merge_over _ _ _ _ (by rw [hparams]; exact hkv)
  have hfresh : lookupA
      (setA (setStateOf st p cb symbol side none r).cache (get_cache_key symbol side none)
        (resolveLayers (setStateOf st p cb symbol side none r).store symbol side none,
          (setStateOf st p cb symbol side none r).now))
      (get_cache_key symbol side none) =
      some (resolveLayers (setStateOf st p cb symbol side none r).store symbol side none,
        (setStateOf st p cb symbol side none r).now) := lookupA_setA_same _ _ _
  refine ⟨?_, ?_, ?_, ?_⟩
  · rw [hstate, hG1]
  · rw [hstate, hG1]
    exact hpoint
  · rw [hstate, hG1]
    have hlt : (setStateOf st p cb symbol side none r).now -
        (setStateOf st p cb symbol side none r).now <
        (setStateOf st p cb symbol side none r).cache_ttl_seconds := by
      rw [Nat.sub_self, setStateOf_ttl]
      exact httl
    simp only [get_config, hfresh]
    rw [if_pos hlt]
  · rw [hstate, hG1]
    have hlt : (setStateOf st p cb symbol side none r).now -
        (setStateOf st p cb symbol side none r).now <
        (setStateOf st p cb symbol side none r).cache_ttl_seconds := by
      rw [Nat.sub_self, setStateOf_ttl]
      exact httl
    simp only [get_config, hfresh]
    rw [if_pos hlt]

/-- Witness for C6 at a concrete symbol-scope write. -/
theorem get_after_set_reflects_write_check :
    emptyState.store.connected = true ∧
    emptyState.store.writable = true ∧
    (validate_parameters (cleanParams [("leverage", Val.num 15)])).1 = true ∧
    scopeArgOk (some "BTCUSDT") ∧
    0 < emptyState.cache_ttl_seconds ∧
    (let R := set_config emptyState [("leverage", Val.num 15)] "ops"
        (some "BTCUSDT") none none none false
     let G1 := get_config R.state (some "BTCUSDT") none none
     let G2 := get_config G1.state (some "BTCUSDT") none none
     G1.storeRead = true ∧
     lookupA G1.params "leverage" = some (Val.num 15) ∧
     G2.storeRead = false ∧ G2.params = G1.params) := by
  have h := get_after_set_reflects_write emptyState [("leverage", Val.num 15)] "ops"
    (some "BTCUSDT") none none rfl rfl (by decide) ⟨by decide, by decide⟩ trivial (by decide)
  exact ⟨rfl, rfl, by decide, ⟨by decide, by decide⟩, by decide,
    h.1, h.2.1 "leverage" (Val.num 15) (by decide), h.2.2.1, h.2.2.2⟩

/-! Claim C7: rollback strategy precedence and error handling. -/

theorem pyTruthy_some (r : String) (hr : r ≠ "") : pyTruthy (some r) = true := by
  simp [pyTruthy, hr]

/-- C7 counterexample: the claim says the "previous version" strategy uses
the latest audit record's parameters_before whenever that record is an
update with non-null parameters_before. The source tests truthiness, not
nullness: after writing version 1 with empty parameters and version 2 with
leverage 15, the latest audit record is an update whose parameters_before
is the non-null empty dict, yet a parameterless rollback does not use it —
it falls through (the second record's parameters_after is the empty dict
too) and fails with "No previous configuration found". -/
theorem rollback_previous_empty_params_falls_through :
    let W1 := set_config emptyState [] "ops" none none none none false
    let W2 := set_config W1.state [("leverage", Val.num 15)] "ops" none none none none false
    let RB := rollback_config W2.state "ops" none none none none none
    W1.ok = true ∧ W2.ok = true ∧
    (W2.state.store.get_config_history none none 2).head?.map
      (fun a => (a.action, a.parameters_before)) = some ("update", some []) ∧
    RB.ok = false ∧ RB.errors = ["No previous configuration found"] :=
  ⟨rfl, rfl, rfl, rfl, rfl⟩

/-- C7 (amended): `rollback_config` chooses exactly one of three strategies
by the precedence rollback_id (given meaning a non-empty string) over
target_version (given meaning present) over "previous version":
(1) by id with no matching audit record: not-found error, no write;
(2) by id with a record whose recorded symbol or side differ: not-found
error, no write; (3) target_version below 1: invalid-version error;
(4) target_version with no matching audit record for the scope and config
type: not-found error; (5) neither given and the latest audit record is an
update with truthy (non-null and non-empty) parameters_before: those
parameters are re-submitted through set_config; (6) neither given, the
latest does not qualify under that truthiness test, and the
second-most-recent record has truthy parameters_after: those are
re-submitted; (7) neither given and no history: "No previous configuration
found"; (8) neither given, the latest does not qualify — in particular an
update whose parameters_before is the empty dict is skipped, not used —
and no second record has truthy parameters_after: "No previous
configuration found". -/
theorem rollback_strategy_precedence :
    (∀ (st : ManagerState) (cbr : String) (symbol side tv reason : Option String)
      (tvi : Option Int) (r : String), r ≠ "" →
      st.store.get_audit_record_by_id r = none →
      rollback_config st cbr symbol side tvi (some r) reason =
        ⟨false, none, ["Audit record " ++ r ++ " not found"], st⟩) ∧
    (∀ (st : ManagerState) (cbr : String) (symbol side reason : Option String)
      (tvi : Option Int) (r : String) (a : TradingConfigAudit), r ≠ "" →
      st.store.connected = true →
      st.store.get_audit_record_by_id r = some a →
      symbol ≠ a.symbol ∨ side ≠ a.side →
      rollback_config st cbr symbol side tvi (some r) reason =
        ⟨false, none, ["Audit record " ++ r ++ " not found"], st⟩) ∧
    (∀ (st : ManagerState) (cbr : String) (symbol side reason : Option String) (tv : Int),
      tv < 1 →
      rollback_config st cbr symbol side (some tv) none reason =
        ⟨false, none, ["Invalid version number (must be >= 1)"], st⟩) ∧
    (∀ (st : ManagerState) (cbr : String) (symbol side reason : Option String) (tv : Int),
      1 ≤ tv → st.store.connected = true →
      st.store.get_audit_record_by_version tv (configType symbol side) symbol side = none →
      rollback_config st cbr symbol side (some tv) none reason =
        ⟨false, none, ["Version " ++ toString tv ++ " not found"], st⟩) ∧
    (∀ (st : ManagerState) (cbr : String) (symbol side reason : Option String)
      (a : TradingConfigAudit) (rest : List TradingConfigAudit) (p : Params),
      st.store.connected = true →
      st.store.get_config_history symbol side 2 = a :: rest →
      a.action = "update" → a.parameters_before = some p → p ≠ [] →
      rollback_config st cbr symbol side none none reason =
        set_config st p cbr symbol side none (some (reasonOr reason)) false) ∧
    (∀ (st : ManagerState) (cbr : String) (symbol side reason : Option String)
      (a b : TradingConfigAudit) (rest : List TradingConfigAudit) (p : Params),
      st.store.connected = true →
      st.store.get_config_history symbol side 2 = a :: b :: rest →
      (a.action = "update" && truthyParams a.parameters_before) = false →
      b.parameters_after = some p → p ≠ [] →
      rollback_config st cbr symbol side none none reason =
        set_config st p cbr symbol side none (some (reasonOr reason)) false) ∧
    (∀ (st : ManagerState) (cbr : String) (symbol side reason : Option String),
      st.store.connected = true →
      st.store.get_config_history symbol side 2 = [] →
      rollback_config st cbr symbol side none none reason =
        ⟨false, none, ["No previous configuration found"], st⟩) ∧
    (∀ (st : ManagerState) (cbr : String) (symbol side reason : Option String)
      (a : TradingConfigAudit) (rest : List TradingConfigAudit),
      st.store.connected = true →
      st.store.get_config_history symbol side 2 = a :: rest →
      (a.action = "update" && truthyParams a.parameters_before) = false →
      (rest.head?.map (fun b => truthyParams b.parameters_after)).getD false = false →
      rollback_config st cbr symbol side none none reason =
        ⟨false, none, ["No previous configuration found"], st⟩) := by
  refine ⟨?_, ?_, ?_, ?_, ?_, ?_, ?_, ?_⟩
  · intro st cbr symbol side tv reason tvi r hr hid
    unfold rollback_config
    rw [pyTruthy_some r hr, if_pos rfl]
    have hcid : get_config_by_id st r symbol side = none := by
      unfold get_config_by_id Store.get_audit_record_by_id at *
      by_cases hc : st.store.connected = true
      · simp [hc, hid]
      · simp only [Bool.not_eq_true] at hc
        simp [hc]
    simp [strD, hcid, truthyParams]
  · intro st cbr symbol side reason tvi r a hr hconn hid hmismatch
    unfold rollback_config
    rw [pyTruthy_some r hr, if_pos rfl]
    have hcid : get_config_by_id st r symbol side = none := by
      unfold get_config_by_id Store.get_audit_record_by_id at *
      rcases hmismatch with hm | hm
      · simp [hconn, hid, hm]
      · by_cases hsymEq : symbol = a.symbol
        · simp [hconn, hid, hsymEq, hm]
        · simp [hconn, hid, hsymEq]
    simp [strD, hcid, truthyParams]
  · intro st cbr symbol side reason tv htv
    unfold rollback_config
    simp only [pyTruthy, Bool.false_eq_true, if_false]
    rw [if_pos htv]
  · intro st cbr symbol side reason tv htv hconn hnone
    unfold rollback_config
    simp only [pyTruthy, Bool.false_eq_true, if_false]
    rw [if_neg (by omega)]
    have hgv : get_config_by_version st tv symbol side = none := by
      unfold get_config_by_version
      rw [if_neg (by omega)]
      simp [hconn, hnone]
    rw [hgv]
    simp [truthyParams]
  · intro st cbr symbol side reason a rest p hconn hhist hact hpb hne
    unfold rollback_config
    simp only [pyTruthy, Bool.false_eq_true, if_false]
    have hprev : get_previous_config st symbol side = some p := by
      unfold get_previous_config
      rw [hconn]
      simp only [Bool.not_true, Bool.false_eq_true, if_false]
      rw [hhist]
      simp [hact, hpb, truthyParams_of_ne_nil p hne]
    rw [hprev]
    simp [truthyParams_of_ne_nil p hne]
  · intro st cbr symbol side reason a b rest p hconn hhist hfirst hpa hne
    unfold rollback_config
    simp only [pyTruthy, Bool.false_eq_true, if_false]
    have hprev : get_previous_config st symbol side = some p := by
      unfold get_previous_config
      rw [hconn]
      simp only [Bool.not_true, Bool.false_eq_true, if_false]
      rw [hhist]
      simp [hfirst, hpa, truthyParams_of_ne_nil p hne]
    rw [hprev]
    simp [truthyParams_of_ne_nil p hne]
  · intro st cbr symbol side reason hconn hhist
    unfold rollback_config
    simp only [pyTruthy, Bool.false_eq_true, if_false]
    have hprev : get_previous_config st symbol side = none := by
      unfold get_previous_config
      rw [hconn]
      simp only [Bool.not_true, Bool.false_eq_true, if_false]
      rw [hhist]
    rw [hprev]
    simp [truthyParams]
  · intro st cbr symbol side reason a rest hconn hhist hfirst hsecond
    unfold rollback_config
    simp only [pyTruthy, Bool.false_eq_true, if_false]
    have hprev : get_previous_config st symbol side = none := by
      unfold get_previous_config
      rw [hconn]
      simp only [Bool.not_true, Bool.false_eq_true, if_false]
      rw [hhist]
      cases rest with
      | nil => simp [hfirst]
      | cons b tl =>
        have hb : truthyParams b.parameters_after = false := by
          simpa using hsecond
        simp [hfirst, hb]
    rw [hprev]
    simp [truthyParams]

/-- Witness for C7: the invalid-version path at target_version 0 and the
id-not-found path at a fresh id, on the empty store. -/
theorem rollback_strategy_precedence_check :
    ((0 : Int) < 1) ∧
    rollback_config emptyState "ops" none none (some 0) none none =
      ⟨false, none, ["Invalid version number (must be >= 1)"], emptyState⟩ ∧
    ("audit-9" ≠ "") ∧
    emptyState.store.get_audit_record_by_id "audit-9" = none ∧
    rollback_config emptyState "ops" none none none (some "audit-9") none =
      ⟨false, none, ["Audit record audit-9 not found"], emptyState⟩ :=
  ⟨by decide,
    rollback_strategy_precedence.2.2.1 emptyState "ops" none none none 0 (by decide),
    by decide, rfl,
    rollback_strategy_precedence.1 emptyState "ops" none none none none none "audit-9"
      (by decide) rfl⟩

/-! Claim C8: regime guard decision order and enforcer scaling. -/

theorem evaluatePolicy_metadata (policy : RegimePolicy) (q : ℚ) :
    (evaluatePolicy policy q).metadata = guardMeta policy := by
  unfold evaluatePolicy
  split
  · rfl
  · split
    · rfl
    · rfl

theorem lookupA_cons_ne {β : Type} (k' k : String) (v : β) (l : List (String × β))
    (h : ¬(k' = k)) : lookupA ((k', v) :: l) k = lookupA l k := by
  simp [lookupA, h]

/-- Extract the scaled_quantity metadata entry from an enforcement result. -/
def enforcedScaledQuantity (r : Except String EnforcerResult) : Option Val :=
  match r with
  | .ok res =>
    match res.metadata with
    | some md => lookupA md "scaled_quantity"
    | none => none
  | .error _ => none

/-- C8: the guard decides in fixed order — drawdown veto first (approved
false, scale 0, reason "drawdown_limit_exceeded", saved_capital =
quantity * drawdown * 1), then volatility scaling (approved true, scale =
scale_down_factor, saved_capital = quantity * drawdown * (1 - scale)),
else full approval (scale 1, saved 0); parsing bounds scale_down_factor to
[0,1] with default 0.5; the enforcer records scaled_quantity = quantity *
scale_factor in the metadata whenever scale_factor < 1; and the concrete
example (vol breach, drawdown 0.02, scale 0.4, quantity 5) yields approval
with scale_factor 0.4, scaled_quantity 2 and saved_capital 0.06. -/
theorem regime_guard_decision_order :
    (∀ (policy : RegimePolicy) (q : ℚ), policy.drawdown_limit_exceeded = true →
      0 ≤ policy.current_drawdown →
      evaluatePolicy policy q = ⟨false, 0, some "drawdown_limit_exceeded",
        guardMeta policy, q * policy.current_drawdown * 1⟩) ∧
    (∀ (policy : RegimePolicy) (q : ℚ), policy.drawdown_limit_exceeded = false →
      policy.vol_threshold_breach = true → 0 < q →
      0 ≤ policy.current_drawdown → policy.scale_down_factor ≤ 1 →
      evaluatePolicy policy q = ⟨true, policy.scale_down_factor, none,
        guardMeta policy, q * policy.current_drawdown * (1 - policy.scale_down_factor)⟩) ∧
    (∀ (policy : RegimePolicy) (q : ℚ), policy.drawdown_limit_exceeded = false →
      policy.vol_threshold_breach = false ∨ q ≤ 0 →
      evaluatePolicy policy q = ⟨true, 1, none, guardMeta policy, 0⟩) ∧
    (∀ (rp : RawPolicy) (policy : RegimePolicy), parsePolicy rp = .ok policy →
      0 ≤ policy.scale_down_factor ∧ policy.scale_down_factor ≤ 1 ∧
        (rp.scale_down_factor = none → policy.scale_down_factor = 1 / 2)) ∧
    (∀ (src : RegimeSource) (intent : IntentPayload) (policy : RegimePolicy),
      get_current_regime src = .ok policy →
      VALID_ACTIONS.contains (pyLower intent.action) = true →
      (∀ c, intent.confidence = some c → 0 ≤ c ∧ c ≤ 1) →
      (evaluatePolicy policy intent.quantity).scale_factor < 1 →
      enforcedScaledQuantity (enforce src intent) =
        some (.num (intent.quantity *
          (evaluatePolicy policy intent.quantity).scale_factor))) ∧
    enforce (.payload ⟨some "high_vol", some true, some false, some (1 / 50), some (2 / 5)⟩)
        ⟨"buy", none, 5⟩ =
      .ok ⟨true, none, some
        [("current_regime", .str "high_vol"),
         ("vol_threshold_breach", .bool true),
         ("drawdown_limit_exceeded", .bool false),
         ("saved_capital", .num (3 / 50)),
         ("scaled_quantity", .num 2),
         ("scale_factor", .num (2 / 5))]⟩ := by
  have hmax1 : max ((1 : ℚ) - 0) 0 = 1 := by norm_num
  refine ⟨?_, ?_, ?_, ?_, ?_, ?_⟩
  · intro policy q hddl hcd
    unfold evaluatePolicy calculate_saved_capital
    rw [if_pos (by rw [hddl])]
    rw [max_eq_left hcd, hmax1]
  · intro policy q hddl hvtb hq hcd hsdf
    unfold evaluatePolicy calculate_saved_capital
    rw [if_neg (by rw [hddl]; simp)]
    rw [if_pos (by rw [hvtb]; simpa using hq)]
    rw [max_eq_left hcd, max_eq_left (by linarith : (0 : ℚ) ≤ 1 - policy.scale_down_factor)]
  · intro policy q hddl hcase
    unfold evaluatePolicy
    rw [if_neg (by rw [hddl]; simp)]
    have hcond : (policy.vol_threshold_breach && decide (0 < q)) = false := by
      rcases hcase with hvtb | hq
      · rw [hvtb]
        simp
      · have hnq : ¬(0 < q) := by linarith
        simp [hnq]
    rw [if_neg (by rw [hcond]; simp)]
  · intro rp policy hparse
    unfold parsePolicy at hparse
    by_cases hrange : rp.scale_down_factor.getD (1 / 2) < 0 ∨ 1 < rp.scale_down_factor.getD (1 / 2)
    · rw [if_pos hrange] at hparse
      exact absurd hparse (by simp)
    · rw [if_neg hrange] at hparse
      push_neg at hrange
      have hpol : policy.scale_down_factor = rp.scale_down_factor.getD (1 / 2) := by
        cases hparse
        rfl
      refine ⟨by rw [hpol]; exact hrange.1, by rw [hpol]; exact hrange.2, ?_⟩
      intro hnone
      rw [hpol, hnone]
      rfl
  · intro src intent policy hpol hact hconf hscale
    simp only [enforce]
    rw [hact]
    simp only [Bool.not_true, Bool.false_eq_true, if_false]
    have hconfB : (match intent.confidence with
        | some c => !(decide (0 ≤ c ∧ c ≤ 1))
        | none => false) = false := by
      cases hc : intent.confidence with
      | none => rfl
      | some c =>
        have := hconf c hc
        simp [this]
    rw [hconfB]
    simp only [Bool.false_eq_true, if_false]
    have heval : evaluate src intent.quantity = .ok (evaluatePolicy policy intent.quantity) := by
      unfold evaluate
      rw [hpol]
    rw [heval]
    simp only []
    rw [if_pos hscale]
    have hmeta := evaluatePolicy_metadata policy intent.quantity
    have hmd0 : ∀ X : Val, lookupA (guardMeta policy ++ [("saved_capital", X)])
        "scaled_quantity" = none := by
      intro X
      unfold guardMeta
      simp only [List.cons_append, List.nil_append]
      rw [lookupA_cons_ne _ _ _ _ (by decide), lookupA_cons_ne _ _ _ _ (by decide),
        lookupA_cons_ne _ _ _ _ (by decide), lookupA_cons_ne _ _ _ _ (by decide)]
      rfl
    have hsq : lookupA ((guardMeta policy ++
          [("saved_capital", Val.num (evaluatePolicy policy intent.quantity).saved_capital)]) ++
          [("scaled_quantity",
            Val.num (scale_position_size intent (evaluatePolicy policy intent.quantity).scale_factor)),
           ("scale_factor", Val.num (evaluatePolicy policy intent.quantity).scale_factor)])
        "scaled_quantity" =
        some (Val.num (scale_position_size intent
          (evaluatePolicy policy intent.quantity).scale_factor)) := by
      rw [lookupA_append, hmd0]
      simp [lookupA]
    cases happ : (evaluatePolicy policy intent.quantity).approved
    · unfold enforcedScaledQuantity
      simp only [happ, Bool.not_false, if_true]
      rw [hmeta]
      rw [lookupA_append, hsq]
      rfl
    · unfold enforcedScaledQuantity
      simp only [happ, Bool.not_true, Bool.false_eq_true, if_false]
      rw [hmeta]
      exact hsq
  · have hlow : pyLower "buy" = "buy" := by decide
    have hpol : get_current_regime
        (.payload ⟨some "high_vol", some true, some false, some (1 / 50), some (2 / 5)⟩) =
        .ok ⟨"high_vol", true, false, 1 / 50, 2 / 5⟩ := by
      simp only [get_current_regime, parsePolicy, Option.getD]
      rw [if_neg (by norm_num)]
    have hq5 : (0 : ℚ) < 5 := by norm_num
    have hev : evaluate
        (.payload ⟨some "high_vol", some true, some false, some (1 / 50), some (2 / 5)⟩) 5 =
        .ok ⟨true, 2 / 5, none, guardMeta ⟨"high_vol", true, false, 1 / 50, 2 / 5⟩,
          5 * (1 / 50) * (1 - 2 / 5)⟩ := by
      unfold evaluate
      rw [hpol]
      simp only [evaluatePolicy, calculate_saved_capital]
      rw [if_neg (by simp)]
      rw [if_pos (by simp [hq5])]
      rw [max_eq_left (by norm_num : (0 : ℚ) ≤ 1 / 50),
        max_eq_left (by norm_num : (0 : ℚ) ≤ 1 - 2 / 5)]
    simp only [enforce, hlow]
    rw [show VALID_ACTIONS.contains "buy" = true from rfl]
    simp only [Bool.not_true, Bool.false_eq_true, if_false]
    rw [hev]
    simp only []
    rw [if_pos (by norm_num : (2 : ℚ) / 5 < 1)]
    simp only [Bool.not_true, Bool.false_eq_true, if_false]
    unfold guardMeta scale_position_size
    norm_num

/-- Witness for C8: the drawdown-veto branch at a concrete policy with
drawdown 1 and quantity 2. -/
theorem regime_guard_decision_order_check :
    (⟨"bearish", false, true, 1, 1 / 2⟩ : RegimePolicy).drawdown_limit_exceeded = true ∧
    0 ≤ (⟨"bearish", false, true, 1, 1 / 2⟩ : RegimePolicy).current_drawdown ∧
    evaluatePolicy ⟨"bearish", false, true, 1, 1 / 2⟩ 2 =
      ⟨false, 0, some "drawdown_limit_exceeded",
        guardMeta ⟨"bearish", false, true, 1, 1 / 2⟩,
        2 * (⟨"bearish", false, true, 1, 1 / 2⟩ : RegimePolicy).current_drawdown * 1⟩ :=
  ⟨rfl, by decide,
    regime_guard_decision_order.1 ⟨"bearish", false, true, 1, 1 / 2⟩ 2 rfl (by decide)⟩

/-! Claim C9: guard behavior when the policy key is absent or the backing
store unreachable. -/

/-- C9 counterexample: an unreachable policy backend does not fall back to
the safe defaults — the raised error propagates out of the guard (and out
of the enforcer), so evaluation does not return a decision. -/
theorem guard_unreachable_raises :
    evaluate RegimeSource.unreachable 1 = .error "regime backend unreachable" ∧
    enforce RegimeSource.unreachable ⟨"buy", none, 1⟩ =
      .error "regime backend unreachable" := by
  constructor
  · rfl
  · rfl

/-- C9 (amended): when no client is configured or the policy key is absent
(or empty) in the backing store, the guard proceeds with the safe default
policy (regime "unknown", no breaches, zero drawdown) and fully approves
every intent with scale factor 1 and zero saved capital; an unreachable
backend, by contrast, raises instead of defaulting. -/
theorem guard_absent_defaults :
    get_current_regime RegimeSource.noClient = .ok defaultRegimePolicy ∧
    get_current_regime RegimeSource.keyAbsent = .ok defaultRegimePolicy ∧
    defaultRegimePolicy.current_regime = "unknown" ∧
    defaultRegimePolicy.vol_threshold_breach = false ∧
    defaultRegimePolicy.drawdown_limit_exceeded = false ∧
    defaultRegimePolicy.current_drawdown = 0 ∧
    (∀ q : ℚ, evaluate RegimeSource.keyAbsent q =
      .ok ⟨true, 1, none, guardMeta defaultRegimePolicy, 0⟩) ∧
    (∀ q : ℚ, evaluate RegimeSource.noClient q =
      .ok ⟨true, 1, none, guardMeta defaultRegimePolicy, 0⟩) := by
  have hq : ∀ q : ℚ, evaluatePolicy defaultRegimePolicy q =
      ⟨true, 1, none, guardMeta defaultRegimePolicy, 0⟩ := by
    intro q
    unfold evaluatePolicy
    rw [if_neg (by decide)]
    rw [if_neg (by simp [defaultRegimePolicy])]
  refine ⟨rfl, rfl, rfl, rfl, rfl, rfl, ?_, ?_⟩
  · intro q
    show Except.ok (evaluatePolicy defaultRegimePolicy q) = _
    rw [hq]
  · intro q
    show Except.ok (evaluatePolicy defaultRegimePolicy q) = _
    rw [hq]

/-! Claim C10: side without symbol is treated as the global scope. -/

/-- C10: a `set_config` (or `delete_config`) call with a side but no
symbol is not rejected: the scope kind computes to "global", the call
reads and version-bumps the global record, and the persisted record and
the appended audit record still carry the given side value. -/
theorem side_without_symbol_global_scope :
    (∀ s : String, configType none (some s) = "global") ∧
    (∀ (st : ManagerState) (p : Params) (cb : String) (s : String) (r : Option String),
      (validate_parameters (cleanParams p)).1 = true →
      st.store.connected = true → st.store.writable = true →
      (set_config st p cb none (some s) none r false).ok = true ∧
      (set_config st p cb none (some s) none r false).config.map
        (fun c => (c.symbol, c.side, c.version)) =
        some (none, some s,
          (match st.store.global_config with | some e => e.version + 1 | none => 1)) ∧
      (set_config st p cb none (some s) none r false).state.store.global_config =
        (set_config st p cb none (some s) none r false).config ∧
      (set_config st p cb none (some s) none r false).state.store.audit_log.head?.map
        (fun a => (a.2.config_type, a.2.symbol, a.2.side)) =
        some ("global", none, some s)) ∧
    (∀ (st : ManagerState) (cb : String) (s : String) (r : Option String) (e : TradingConfig),
      st.store.connected = true → st.store.writable = true →
      st.store.global_config = some e →
      (delete_config st cb none (some s) r).ok = true ∧
      (delete_config st cb none (some s) r).state.store.global_config = none ∧
      (delete_config st cb none (some s) r).state.store.audit_log.head?.map
        (fun a => (a.2.config_type, a.2.symbol, a.2.side, a.2.action, a.2.version_before)) =
        some ("global", none, some s, "delete", some e.version)) := by
  have hct : ∀ s : String, configType none (some s) = "global" := by
    intro s
    simp [configType, pyTruthy]
  refine ⟨hct, ?_, ?_⟩
  · intro st p cb s r hv hconn hw
    have h := set_config_success_eq st p cb none (some s) none r hv hconn hw
    have hexist : scopeExisting st none (some s) = st.store.global_config := by
      unfold scopeExisting
      rw [hct, getScopeConfig_global_eq]
      rfl
    have hver : newVersion st none (some s) =
        (match st.store.global_config with | some e => e.version + 1 | none => 1) := by
      unfold newVersion
      rw [hexist]
    have hglobal : (setStateOf st p cb none (some s) none r).store.global_config =
        some (newConfigOf st p cb none (some s) none) := by
      have hs := setStateOf_scope st p cb none (some s) none r hw
      rw [hct, getScopeConfig_global_eq] at hs
      exact hs
    refine ⟨by rw [h], ?_, ?_, ?_⟩
    · rw [h]
      simp only [Option.map]
      rw [show (newConfigOf st p cb none (some s) none).version =
        newVersion st none (some s) from rfl, hver]
      rfl
    · rw [h, hglobal]
    · rw [h, setStateOf_audit_log]
      simp only [List.head?, Option.map]
      rw [show (auditOf st p cb none (some s) r).config_type =
        configType none (some s) from rfl, hct]
      rfl
  · intro st cb s r e hconn hw hglob
    have hdel : delete_config st cb none (some s) r =
        ⟨true, [], invalidate_cache
          { st with
            store := Store.add_audit_record ({ st.store with global_config := none })
              ⟨"global", none, some s, "delete", some e.parameters, none, some e.version,
                none, cb, r, st.now, none⟩ } none (some s) none⟩ := by
      simp only [delete_config, hct, hconn, if_true, if_pos rfl]
      rw [show getScopeConfig st.store "global" none (some s) = some e from by
        rw [getScopeConfig_global_eq]; exact hglob]
      simp only [Store.delete_global_config, hw, if_true]
      simp [hconn]
    rw [hdel]
    exact ⟨rfl, rfl, rfl⟩

/-- Witness for C10: a concrete side-without-symbol write and delete on
the empty store. -/
theorem side_without_symbol_global_scope_check :
    (validate_parameters (cleanParams [("leverage", Val.num 15)])).1 = true ∧
    (set_config emptyState [("leverage", Val.num 15)] "ops" none (some "LONG") none
      none false).ok = true ∧
    (set_config emptyState [("leverage", Val.num 15)] "ops" none (some "LONG") none
      none false).config.map (fun c => (c.symbol, c.side, c.version)) =
      some (none, some "LONG",
        (match emptyState.store.global_config with | some e => e.version + 1 | none => 1)) ∧
    (set_config emptyState [("leverage", Val.num 15)] "ops" none (some "LONG") none
      none false).state.store.audit_log.head?.map
      (fun a => (a.2.config_type, a.2.symbol, a.2.side)) =
      some ("global", none, some "LONG") := by
  have h := side_without_symbol_global_scope.2.1 emptyState [("leverage", Val.num 15)]
    "ops" "LONG" none (by decide) rfl rfl
  exact ⟨by decide, h.1, h.2.1, h.2.2.2⟩

end Petrosa
